import Mathlib

/-!
Shallow embedding of `src/autogen.py` (Spaceflight-Simulator repository).

The functional core of the program is `generate_bodies`, which draws random
positions, velocities and masses and renders them into a line-oriented
`key=value` / `key.subkey=value` properties document.  We embed it over `ℚ`:
the process-wide random stream is made explicit by passing the drawn values
as arguments (`positions`, `velocities`, `masses`), exactly in the order and
multiplicity the Python code consumes them.  The Python `f"{x:.1f}"` float
formatting is modelled as rounding to the nearest tenth (`fmt1` / `fmt1val`).
Side effects of the visualizer and the entry point are modelled as explicit
effect traces.
-/

namespace Autogen

/-- Python `f"{x:.1f}"`: the numeric value denoted by the one-decimal
rendering of `x`, i.e. `x` rounded to the nearest tenth. -/
def fmt1val (q : ℚ) : ℚ := round (10 * q) / 10

/-- Python `f"{x:.1f}"`: render `x` rounded to the nearest tenth with exactly
one digit after the decimal point. -/
def fmt1 (q : ℚ) : String :=
  let n : ℤ := round (10 * q)
  let m : ℕ := n.natAbs
  (if n < 0 then "-" else "") ++ Nat.repr (m / 10) ++ "." ++ Nat.repr (m % 10)

/-- Python `f"{p[0]:.1f},{p[1]:.1f},{p[2]:.1f}"`: a comma-separated triple of
one-decimal renderings (used for the `.position` and `.velocity` values,
src/autogen.py lines 57-58). -/
def fmt3 (v : ℚ × ℚ × ℚ) : String :=
  fmt1 v.1 ++ "," ++ fmt1 v.2.1 ++ "," ++ fmt1 v.2.2

/-- Python `f"{density}"`, i.e. `str()` of the density value.  The exact
characters of the Python float `repr` are immaterial to every claim (only the
key part `body{i}.density` of the line is ever inspected); we render the
rational as an integer-or-fraction string, which like the Python output
contains neither `'='` nor `'#'` nor a newline. -/
def pyStr (q : ℚ) : String :=
  (if q.num < 0 then "-" else "") ++ Nat.repr q.num.natAbs ++
    (if q.den = 1 then "" else "/" ++ Nat.repr q.den)

/-- `f"body{i}"` (src/autogen.py line 47). -/
def bodyKey (i : ℕ) : String := "body" ++ Nat.repr i

/-- The eight lines appended for body `i` in the loop of
src/autogen.py lines 52-60: comment, name, mass, density, position,
velocity, color, and the blank separator line. -/
def bodyLines (i : ℕ) (mass density : ℚ) (pos vel : ℚ × ℚ × ℚ) : List String :=
  [ "# Body " ++ Nat.repr i ++ ":",
    bodyKey i ++ ".name=Body " ++ Nat.repr i,
    bodyKey i ++ ".mass=" ++ fmt1 mass,
    bodyKey i ++ ".density=" ++ pyStr density,
    bodyKey i ++ ".position=" ++ fmt3 pos,
    bodyKey i ++ ".velocity=" ++ fmt3 vel,
    bodyKey i ++ ".color=200,200,200",
    "" ]

/-- The header lines appended before the body loop
(src/autogen.py lines 36-49), including the `bodies=` line that joins the
body keys with single spaces. -/
def headerLines (n : ℕ) : List String :=
  [ "# Physics system setup",
    "",
    "# System name:",
    "name=Random System (" ++ Nat.repr n ++ " bodies)",
    "# Gravitational constant (unrealistic units)",
    "gravity=10.0",
    "# Simulation time step (seconds)",
    "timeStep=0.004",
    "# Keys for defined bodies",
    "bodies=" ++ String.intercalate " " ((List.range n).map bodyKey),
    "" ]

/-- The `output` list built by `generate_bodies`
(src/autogen.py lines 36-60): header lines followed by the eight lines of
each body in ordinal order.  `positions`, `velocities` and `masses` are the
values consumed from the random stream (`masses` already carries the effect
of the `np.random.shuffle` on line 33: theorems relate it to the pre-shuffle
uniform draws by a permutation hypothesis). -/
def generateBodiesLines (n : ℕ) (positions velocities : List (ℚ × ℚ × ℚ))
    (masses : List ℚ) (density : ℚ) : List String :=
  headerLines n ++ (List.range n).flatMap (fun i =>
    bodyLines i (masses.getD i 0) density
      (positions.getD i (0, 0, 0)) (velocities.getD i (0, 0, 0)))

/-- `generate_bodies` (src/autogen.py lines 5-62): the returned string is the
`output` list joined with newlines (`"\n".join(output)`, line 62). -/
def generate_bodies (n : ℕ) (positions velocities : List (ℚ × ℚ × ℚ))
    (masses : List ℚ) (density : ℚ) : String :=
  String.intercalate "\n" (generateBodiesLines n positions velocities masses density)

/-! ### A line-oriented `key=value` reader

The claims speak of the returned text "parsed as line-oriented key=value
records with the `key.subkey=value` convention".  We model that reader
directly: split the text on newlines; a line is a key-value line when it is
nonempty, does not start with the comment marker `'#'`, and contains `'='`;
its key is everything before the first `'='` and its value everything
after it. -/

/-- Split a character list on newline characters; like the Python
`str.split("\n")`, the result always has one more group than there are
newlines (so the empty text yields one empty line). -/
def splitLines : List Char → List (List Char)
  | [] => [[]]
  | c :: cs =>
    if c == '\n' then [] :: splitLines cs
    else
      match splitLines cs with
      | [] => [[c]]
      | g :: gs => (c :: g) :: gs

/-- The lines of a text, as strings. -/
def linesOf (s : String) : List String := (splitLines s.data).map List.asString

/-- The key part of a line: the characters before the first `'='`. -/
def keyOf (l : String) : List Char := l.data.takeWhile (fun c => c != '=')

/-- The value part of a line: the characters after the first `'='`. -/
def valueOf (l : String) : List Char := (l.data.dropWhile (fun c => c != '=')).drop 1

/-- A line holds a key-value record when it is nonempty, is not a `#` comment
line, and contains `'='`. -/
def isKVLine (l : String) : Bool :=
  l.data.headD '#' != '#' && l.data.contains '='

/-- Does the second character list begin with the first? -/
def leadMatch : List Char → List Char → Bool
  | [], _ => true
  | _ :: _, [] => false
  | a :: as, b :: bs => a == b && leadMatch as bs

/-- Does the key of line `l` end with the characters of `suf`?  Used to
recognize the per-body field suffixes `.name`, `.mass`, `.density`,
`.position`, `.velocity`, `.color`. -/
def keyEndsWith (l : String) (suf : String) : Bool :=
  leadMatch suf.data.reverse (keyOf l).reverse

/-- Is the key of line `l` exactly `k`? -/
def keyIs (l : String) (k : String) : Bool :=
  keyOf l == k.data

/-- Number of key-value lines whose key ends with `suf`. -/
def countKeySuffix (lines : List String) (suf : String) : ℕ :=
  (lines.filter (fun l => isKVLine l && keyEndsWith l suf)).length

/-- Number of key-value lines whose key is exactly `k`. -/
def countKey (lines : List String) (k : String) : ℕ :=
  (lines.filter (fun l => isKVLine l && keyIs l k)).length

/-- The section prefix of the key of a line: the characters before the first
`'.'` of the key (for `body3.mass=…` this is `body3`). -/
def keyPre (l : String) : List Char := (keyOf l).takeWhile (fun c => c != '.')

/-- Does the key of line `l` contain a `'.'`, i.e. is it a
`key.subkey=value` line? -/
def hasDotKey (l : String) : Bool := (keyOf l).contains '.'

/-- Split a character list on a separator character, discarding the
separators; the empty list yields no tokens. -/
def splitOnC (sep : Char) : List Char → List (List Char)
  | [] => []
  | c :: cs =>
    if c == sep then [] :: splitOnC sep cs
    else
      match splitOnC sep cs with
      | [] => [[c]]
      | g :: gs => (c :: g) :: gs

/-- Join character lists with a separator list between consecutive tokens. -/
def sepJoin (sep : List Char) : List (List Char) → List Char
  | [] => []
  | t :: ts => t ++ ts.flatMap (fun u => sep ++ u)

/-- Is `cs` an unsigned decimal numeral with exactly one digit after the
decimal point (`digits "." digit`)? -/
def isUDec1 (cs : List Char) : Bool :=
  let intPart := cs.takeWhile Char.isDigit
  (decide (intPart ≠ [])) &&
    match cs.drop intPart.length with
    | ['.', d] => d.isDigit
    | _ => false

/-- Is `cs` a decimal numeral (optionally signed) with exactly one digit
after the decimal point? -/
def isDec1 (cs : List Char) : Bool :=
  match cs with
  | [] => false
  | c :: r => if c == '-' then isUDec1 r else isUDec1 (c :: r)

/-- The key-value lines whose key ends with `suf`, in document order. -/
def kvWithSuffix (lines : List String) (suf : String) : List String :=
  lines.filter (fun l => isKVLine l && keyEndsWith l suf)

/-- The key-value lines whose key is exactly `k`, in document order. -/
def kvWithKey (lines : List String) (k : String) : List String :=
  lines.filter (fun l => isKVLine l && keyIs l k)

/-- Characters that occur in the keys of the generated document: letters,
digits and the subkey separator `'.'`. -/
def keyChar (c : Char) : Bool := c.isDigit || c.isAlpha || c == '.'

/-- The decimal numeral of `n`, most significant digit first. -/
def decDigits (n : ℕ) : List Char :=
  if _h : n < 10 then [Nat.digitChar n]
  else decDigits (n / 10) ++ [Nat.digitChar (n % 10)]
decreasing_by exact Nat.div_lt_self (by omega) (by omega)

/-- Decode a decimal numeral back to the natural number it denotes. -/
def decVal (cs : List Char) : ℕ :=
  cs.foldl (fun a c => 10 * a + (c.toNat - 48)) 0

/-! ### Observable side effects

The claims C8-C10 are about what the functions do besides computing values:
file writes, the interactive figure display, and console output.  We model
these as explicit effect traces. -/

/-- An observable external effect of the program. -/
inductive Effect where
  /-- Writing a file: name and contents. -/
  | fileWrite : String → String → Effect
  /-- Displaying the matplotlib figure interactively (`plt.show()`). -/
  | showFigure : Effect
  /-- Printing a line to the console. -/
  | consoleOut : String → Effect
deriving DecidableEq

/-- Effect trace of `generate_bodies` (src/autogen.py lines 5-62): the body
of the function only samples the random stream, builds a list of strings and
joins it; it opens no file and prints nothing, so the trace is empty.  (The
advancing of the process-wide random stream is modelled by the explicit
draw arguments, not as an external effect.) -/
def generate_bodies_effects : List Effect := []

/-- Effect trace of `visualize_distributions` (src/autogen.py lines 64-104):
every matplotlib call up to line 103 only mutates the in-process figure
object; `plt.show()` on line 104 displays it interactively.  No `savefig`
call and no file `open` occurs anywhere in the function, so the trace holds
no `fileWrite`. -/
def visualize_distributions_effects : List Effect := [Effect.showFigure]

/-- Effect trace of `main` (src/autogen.py lines 106-133): write the
generated document to `random_system.properties` (lines 114-115), run the
visualizer (line 118), print the two summary messages (lines 120-121) —
the second of which claims a visualization file was saved — and print the
statistics lines (lines 129-133).  `doc` is the generated document and
`statLines` the printed statistics (both depend on the random draws). -/
def main_effects (doc : String) (statLines : List String) : List Effect :=
  [Effect.fileWrite "random_system.properties" doc] ++
    visualize_distributions_effects ++
    [Effect.consoleOut "Generated 100 bodies in \x27random_system.properties\x27",
     Effect.consoleOut "Visualization saved to \x27body_distributions.png\x27"] ++
    statLines.map Effect.consoleOut

/-! ### Negative body counts

`np.random.normal(0, scale, (n_bodies, 3))` (src/autogen.py line 25) is the
first statement of `generate_bodies` to consume `n_bodies`.  NumPy rejects a
negative dimension in the shape tuple by raising
`ValueError: negative dimensions are not allowed`, before any output is
assembled.  We model the fallible call and the resulting fallible version of
`generate_bodies` over `n_bodies : ℤ`. -/

/-- `np.random.normal(0, scale, (n, 3))` for a possibly negative `n`:
a negative dimension is rejected with the NumPy `ValueError` message,
otherwise the next `n` rows are consumed from the random stream. -/
def npNormalMatrix (n : ℤ) (draws : List (ℚ × ℚ × ℚ)) :
    Except String (List (ℚ × ℚ × ℚ)) :=
  if n < 0 then Except.error "negative dimensions are not allowed"
  else Except.ok (draws.take n.toNat)

/-- `np.random.uniform(low, high, n)` for a possibly negative size `n`:
like `np.random.normal`, a negative size raises
`ValueError: negative dimensions are not allowed`. -/
def npUniformVec (n : ℤ) (draws : List ℚ) : Except String (List ℚ) :=
  if n < 0 then Except.error "negative dimensions are not allowed"
  else Except.ok (draws.take n.toNat)

/-- `generate_bodies` over an integer `n_bodies`, with the three sampling
steps (src/autogen.py lines 25, 28, 32) made fallible in program order;
a failure aborts before any output is assembled. -/
def generate_bodiesE (n : ℤ) (positionDraws velocityDraws : List (ℚ × ℚ × ℚ))
    (massDraws : List ℚ) (shuffled : List ℚ) (density : ℚ) :
    Except String String :=
  match npNormalMatrix n positionDraws with
  | Except.error e => Except.error e
  | Except.ok ps =>
    match npNormalMatrix n velocityDraws with
    | Except.error e => Except.error e
    | Except.ok vs =>
      match npUniformVec n massDraws with
      | Except.error e => Except.error e
      | Except.ok _ => Except.ok (generate_bodies n.toNat ps vs shuffled density)

/-! ### Decimal numerals: characters and injectivity

`Nat.repr` (used to model the Python `f"{i}"` interpolation of integers)
produces only digit characters, and is injective.  We characterize the core library
fuel-based `Nat.toDigitsCore` by a clean recursion `decDigits` and decode
it back. -/

theorem digitChar_isDigit : ∀ m : ℕ, m < 10 → (Nat.digitChar m).isDigit = true := by
  decide

theorem toDigitsCore_digits (f : ℕ) : ∀ (n : ℕ) (ds : List Char),
    (∀ c ∈ ds, c.isDigit = true) →
    ∀ c ∈ Nat.toDigitsCore 10 f n ds, c.isDigit = true := by
  induction f with
  | zero =>
    intro n ds h c hc
    simpa [Nat.toDigitsCore] using h c (by simpa [Nat.toDigitsCore] using hc)
  | succ f ih =>
    intro n ds h c hc
    have hds : ∀ c ∈ Nat.digitChar (n % 10) :: ds, c.isDigit = true := by
      intro c hc
      rcases List.mem_cons.mp hc with h0 | h0
      · subst h0; exact digitChar_isDigit _ (Nat.mod_lt _ (by omega))
      · exact h c h0
    by_cases h0 : n / 10 = 0
    · simp only [Nat.toDigitsCore, h0, if_true] at hc
      exact hds c hc
    · simp only [Nat.toDigitsCore, h0, if_false] at hc
      exact ih (n / 10) _ hds c hc

theorem toDigitsCore_append (f : ℕ) : ∀ (n : ℕ) (ds : List Char),
    Nat.toDigitsCore 10 f n ds = Nat.toDigitsCore 10 f n [] ++ ds := by
  induction f with
  | zero => intro n ds; simp [Nat.toDigitsCore]
  | succ f ih =>
    intro n ds
    by_cases h0 : n / 10 = 0
    · simp [Nat.toDigitsCore, h0]
    · simp only [Nat.toDigitsCore, h0, if_false]
      rw [ih (n / 10) (Nat.digitChar (n % 10) :: ds), ih (n / 10) [Nat.digitChar (n % 10)]]
      simp

theorem toDigitsCore_eq_decDigits (f : ℕ) : ∀ n, n < f →
    Nat.toDigitsCore 10 f n [] = decDigits n := by
  induction f with
  | zero => intro n h; omega
  | succ f ih =>
    intro n h
    by_cases h10 : n < 10
    · have hd : n / 10 = 0 := Nat.div_eq_of_lt h10
      rw [decDigits]
      simp [Nat.toDigitsCore, hd, h10, Nat.mod_eq_of_lt h10]
    · have hne : ¬ n / 10 = 0 := by
        intro hz
        have := Nat.div_add_mod n 10
        rw [hz] at this
        have := Nat.mod_lt n (show 0 < 10 by omega)
        omega
      have hlt : n / 10 < f := by
        have := Nat.div_lt_self (show 0 < n by omega) (show 1 < 10 by omega)
        omega
      rw [decDigits]
      simp only [Nat.toDigitsCore, hne, if_false, h10, dif_neg, not_false_iff]
      rw [toDigitsCore_append, ih (n / 10) hlt]

theorem repr_data (n : ℕ) : (Nat.repr n).data = decDigits n := by
  show (List.asString (Nat.toDigits 10 n)).data = decDigits n
  rw [show ∀ l : List Char, (List.asString l).data = l from fun _ => rfl]
  exact toDigitsCore_eq_decDigits (n + 1) n (Nat.lt_succ_self n)

theorem repr_digits (n : ℕ) : ∀ c ∈ (Nat.repr n).data, c.isDigit = true := by
  show ∀ c ∈ (List.asString (Nat.toDigits 10 n)).data, c.isDigit = true
  rw [show ∀ l : List Char, (List.asString l).data = l from fun _ => rfl]
  exact toDigitsCore_digits (n + 1) n [] (by simp)

theorem decDigits_ne_nil (n : ℕ) : decDigits n ≠ [] := by
  rw [decDigits]
  by_cases h : n < 10 <;> simp [h]

theorem repr_data_ne_nil (n : ℕ) : (Nat.repr n).data ≠ [] := by
  rw [repr_data]; exact decDigits_ne_nil n

theorem repr_data_lt10 (n : ℕ) (h : n < 10) : (Nat.repr n).data = [Nat.digitChar n] := by
  rw [repr_data, decDigits]; simp [h]

theorem digitChar_val : ∀ m : ℕ, m < 10 → (Nat.digitChar m).toNat - 48 = m := by
  decide

theorem decVal_decDigits (n : ℕ) : decVal (decDigits n) = n := by
  induction n using Nat.strong_induction_on with
  | _ n ih =>
    by_cases h : n < 10
    · rw [decDigits]
      simp only [h, dif_pos]
      show 10 * 0 + ((Nat.digitChar n).toNat - 48) = n
      rw [digitChar_val n h]
      omega
    · rw [decDigits]
      simp only [h, dif_neg, not_false_iff]
      show List.foldl _ 0 (decDigits (n / 10) ++ [Nat.digitChar (n % 10)]) = n
      rw [List.foldl_append]
      show 10 * decVal (decDigits (n / 10)) + ((Nat.digitChar (n % 10)).toNat - 48) = n
      rw [ih (n / 10) (Nat.div_lt_self (by omega) (by omega)),
        digitChar_val (n % 10) (Nat.mod_lt n (by omega))]
      omega

theorem repr_injective : ∀ m n : ℕ, Nat.repr m = Nat.repr n → m = n := by
  intro m n h
  have hd : decDigits m = decDigits n := by
    rw [← repr_data, ← repr_data, h]
  have := congrArg decVal hd
  rwa [decVal_decDigits, decVal_decDigits] at this

/-! ### Generic facts about the line reader -/

theorem keyChar_of_isDigit {c : Char} (h : c.isDigit = true) : keyChar c = true := by
  simp [keyChar, h]

theorem keyChar_ne_eq {c : Char} (h : keyChar c = true) : c ≠ '=' := by
  intro he; subst he; exact absurd h (by decide)

theorem keyChar_ne_hash {c : Char} (h : keyChar c = true) : c ≠ '#' := by
  intro he; subst he; exact absurd h (by decide)

theorem keyChar_ne_dot_of {c : Char} (h : c.isDigit = true) : c ≠ '.' := by
  intro he; subst he; exact absurd h (by decide)

theorem takeWhile_append_of_all (p : Char → Bool) (k : List Char)
    (h : ∀ c ∈ k, p c = true) (c0 : Char) (hc : p c0 = false) (rest : List Char) :
    (k ++ c0 :: rest).takeWhile p = k := by
  induction k with
  | nil => simp [List.takeWhile, hc]
  | cons a as ih =>
    have ha : p a = true := h a (List.mem_cons_self a as)
    simp only [List.cons_append, List.takeWhile_cons, ha, if_true]
    rw [ih (fun c hc' => h c (List.mem_cons_of_mem a hc'))]

theorem dropWhile_append_of_all (p : Char → Bool) (k : List Char)
    (h : ∀ c ∈ k, p c = true) (c0 : Char) (hc : p c0 = false) (rest : List Char) :
    (k ++ c0 :: rest).dropWhile p = c0 :: rest := by
  induction k with
  | nil => simp [List.dropWhile, hc]
  | cons a as ih =>
    have ha : p a = true := h a (List.mem_cons_self a as)
    simp only [List.cons_append, List.dropWhile_cons, ha, if_true]
    exact ih (fun c hc' => h c (List.mem_cons_of_mem a hc'))

theorem keyOf_mk (k v : String) (hk : ∀ c ∈ k.data, keyChar c = true) :
    keyOf (k ++ "=" ++ v) = k.data := by
  unfold keyOf
  rw [String.data_append, String.data_append,
    show ("=" : String).data = ['='] from rfl, List.append_assoc]
  exact takeWhile_append_of_all _ k.data
    (fun c hc => by simp [bne_iff_ne, keyChar_ne_eq (hk c hc)]) '=' (by decide) v.data

theorem valueOf_mk (k v : String) (hk : ∀ c ∈ k.data, keyChar c = true) :
    valueOf (k ++ "=" ++ v) = v.data := by
  unfold valueOf
  rw [String.data_append, String.data_append,
    show ("=" : String).data = ['='] from rfl, List.append_assoc]
  rw [show ((['='] : List Char) ++ v.data) = '=' :: v.data from rfl,
    dropWhile_append_of_all _ k.data
      (fun c hc => by simp [bne_iff_ne, keyChar_ne_eq (hk c hc)]) '=' (by decide) v.data]
  simp

theorem isKVLine_mk (k v : String) (hk : ∀ c ∈ k.data, keyChar c = true)
    (hne : k.data ≠ []) : isKVLine (k ++ "=" ++ v) = true := by
  unfold isKVLine
  rw [String.data_append, String.data_append,
    show ("=" : String).data = ['='] from rfl, List.append_assoc]
  cases hdata : k.data with
  | nil => exact absurd hdata hne
  | cons a as =>
    have ha : keyChar a = true := hk a (by rw [hdata]; exact List.mem_cons_self a as)
    have hc : (a :: as ++ ('=' :: v.data)).contains '=' = true := by
      unfold List.contains
      exact List.elem_eq_true_of_mem (by simp)
    simp only [show ((['='] : List Char) ++ v.data) = '=' :: v.data from rfl, hc,
      List.headD_cons, Bool.and_true]
    simp [bne_iff_ne, keyChar_ne_hash ha]

theorem keyEndsWith_mk (k v suf : String) (hk : ∀ c ∈ k.data, keyChar c = true) :
    keyEndsWith (k ++ "=" ++ v) suf = leadMatch suf.data.reverse k.data.reverse := by
  unfold keyEndsWith
  rw [keyOf_mk k v hk]

theorem keyIs_mk (k v k' : String) (hk : ∀ c ∈ k.data, keyChar c = true) :
    keyIs (k ++ "=" ++ v) k' = (k.data == k'.data) := by
  unfold keyIs
  rw [keyOf_mk k v hk]

theorem leadMatch_append_self (a r : List Char) : leadMatch a (a ++ r) = true := by
  induction a with
  | nil => rfl
  | cons c cs ih => simp [leadMatch, ih]

theorem leadMatch_cons₂_false (a1 a2 b1 b2 : Char) (as bs : List Char)
    (h : (a1 == b1 && a2 == b2) = false) :
    leadMatch (a1 :: a2 :: as) (b1 :: b2 :: bs) = false := by
  cases h1 : a1 == b1 <;> cases h2 : a2 == b2 <;>
    simp_all [leadMatch]

theorem isKVLine_hash (s t : String) (hd : s.data.headD '=' = '#') :
    isKVLine (s ++ t) = false := by
  unfold isKVLine
  rw [String.data_append]
  cases hdata : s.data with
  | nil => rw [hdata] at hd; exact absurd hd (by decide)
  | cons a as =>
    rw [hdata] at hd
    simp only [List.headD_cons] at hd
    simp [hd]

/-! ### The body keys and the shapes of the generated lines -/

theorem bodyKey_data (i : ℕ) : (bodyKey i).data = 'b' :: 'o' :: 'd' :: 'y' :: (Nat.repr i).data :=
  rfl

theorem bodyKey_keyChars (i : ℕ) : ∀ c ∈ (bodyKey i).data, keyChar c = true := by
  rw [bodyKey_data]
  intro c hc
  simp only [List.mem_cons] at hc
  rcases hc with h | h | h | h | h
  · subst h; decide
  · subst h; decide
  · subst h; decide
  · subst h; decide
  · exact keyChar_of_isDigit (repr_digits i c h)

theorem bodyKey_no_dot (i : ℕ) : ∀ c ∈ (bodyKey i).data, (c != '.') = true := by
  rw [bodyKey_data]
  intro c hc
  simp only [List.mem_cons] at hc
  rcases hc with h | h | h | h | h
  · subst h; decide
  · subst h; decide
  · subst h; decide
  · subst h; decide
  · simp [bne_iff_ne, keyChar_ne_dot_of (repr_digits i c h)]

theorem bodyFieldKey_chars (i : ℕ) (fld : String)
    (hfld : ∀ c ∈ fld.data, keyChar c = true) :
    ∀ c ∈ (bodyKey i ++ fld).data, keyChar c = true := by
  rw [String.data_append]
  intro c hc
  rcases List.mem_append.mp hc with h | h
  · exact bodyKey_keyChars i c h
  · exact hfld c h

theorem bodyFieldKey_ne_nil (i : ℕ) (fld : String) :
    (bodyKey i ++ fld).data ≠ [] := by
  rw [String.data_append, bodyKey_data]
  simp

/-- The eight body lines, with each key-value line reassociated into the
shape `key ++ "=" ++ value` used by the reader lemmas. -/
theorem bodyLines_eq (i : ℕ) (mass density : ℚ) (pos vel : ℚ × ℚ × ℚ) :
    bodyLines i mass density pos vel =
    [ "# Body " ++ Nat.repr i ++ ":",
      (bodyKey i ++ ".name") ++ "=" ++ ("Body " ++ Nat.repr i),
      (bodyKey i ++ ".mass") ++ "=" ++ fmt1 mass,
      (bodyKey i ++ ".density") ++ "=" ++ pyStr density,
      (bodyKey i ++ ".position") ++ "=" ++ fmt3 pos,
      (bodyKey i ++ ".velocity") ++ "=" ++ fmt3 vel,
      (bodyKey i ++ ".color") ++ "=" ++ "200,200,200",
      "" ] := by
  unfold bodyLines
  simp only [show (".name=Body " : String) = ".name" ++ "=" ++ "Body " from rfl,
    show (".mass=" : String) = ".mass" ++ "=" from rfl,
    show (".density=" : String) = ".density" ++ "=" from rfl,
    show (".position=" : String) = ".position" ++ "=" from rfl,
    show (".velocity=" : String) = ".velocity" ++ "=" from rfl,
    show (".color=200,200,200" : String) = ".color" ++ "=" ++ "200,200,200" from rfl,
    String.append_assoc]

/-- The header lines, with each key-value line reassociated into the shape
`key ++ "=" ++ value`. -/
theorem headerLines_eq (n : ℕ) : headerLines n =
    [ "# Physics system setup",
      "",
      "# System name:",
      "name" ++ "=" ++ ("Random System (" ++ Nat.repr n ++ " bodies)"),
      "# Gravitational constant (unrealistic units)",
      "gravity" ++ "=" ++ "10.0",
      "# Simulation time step (seconds)",
      "timeStep" ++ "=" ++ "0.004",
      "# Keys for defined bodies",
      "bodies" ++ "=" ++ String.intercalate " " ((List.range n).map bodyKey),
      "" ] := by
  unfold headerLines
  simp only [show ("name=Random System (" : String) = "name" ++ "=" ++ "Random System (" from rfl,
    show ("gravity=10.0" : String) = "gravity" ++ "=" ++ "10.0" from rfl,
    show ("timeStep=0.004" : String) = "timeStep" ++ "=" ++ "0.004" from rfl,
    show ("bodies=" : String) = "bodies" ++ "=" from rfl,
    String.append_assoc]

/-! ### Evaluating `leadMatch` and key comparisons -/

theorem leadMatch_append_false (p : List Char) : ∀ (q X : List Char),
    leadMatch (p.take q.length) q = false → leadMatch p (q ++ X) = false := by
  induction p with
  | nil => intro q X h; exact absurd h (by simp [leadMatch])
  | cons a as ih =>
    intro q X h
    cases q with
    | nil => simp [leadMatch] at h
    | cons b bs =>
      simp only [List.length_cons, List.take_succ_cons, leadMatch] at h
      simp only [List.cons_append, leadMatch]
      cases hab : a == b with
      | false => simp
      | true => simp only [hab, Bool.true_and] at h ⊢; exact ih bs X h

theorem beq_false_of_ne {as bs : List Char} (h : as ≠ bs) : (as == bs) = false := by
  cases hb : as == bs with
  | true => exact absurd (eq_of_beq hb) h
  | false => rfl

theorem key_split_inj (i j : ℕ) (t1 t2 : List Char)
    (h : (bodyKey i).data ++ '.' :: t1 = (bodyKey j).data ++ '.' :: t2) :
    i = j ∧ t1 = t2 := by
  have htw := congrArg (List.takeWhile (fun c => c != '.')) h
  rw [takeWhile_append_of_all _ _ (bodyKey_no_dot i) '.' (by decide) t1,
    takeWhile_append_of_all _ _ (bodyKey_no_dot j) '.' (by decide) t2] at htw
  have hij : i = j := by
    rw [bodyKey_data, bodyKey_data] at htw
    simp only [List.cons.injEq, true_and] at htw
    exact repr_injective i j (String.ext htw)
  subst hij
  refine ⟨rfl, ?_⟩
  have := List.append_cancel_left h
  simpa using this

/-! ### Evaluating the reader on the generated lines -/

theorem isKVLine_bodyComment (i : ℕ) :
    isKVLine ("# Body " ++ Nat.repr i ++ ":") = false := by
  apply isKVLine_hash ("# Body " ++ Nat.repr i) ":"
  rw [String.data_append, show ("# Body " : String).data = '#' :: " Body ".data from rfl]
  rfl

theorem isKVLine_bodyField (i : ℕ) (fld v : String)
    (hfld : ∀ c ∈ fld.data, keyChar c = true) :
    isKVLine ((bodyKey i ++ fld) ++ "=" ++ v) = true :=
  isKVLine_mk _ _ (bodyFieldKey_chars i fld hfld) (bodyFieldKey_ne_nil i fld)

theorem keyEndsWith_bodyField_self (i : ℕ) (fld v : String)
    (hfld : ∀ c ∈ fld.data, keyChar c = true) :
    keyEndsWith ((bodyKey i ++ fld) ++ "=" ++ v) fld = true := by
  rw [keyEndsWith_mk _ _ _ (bodyFieldKey_chars i fld hfld),
    String.data_append, List.reverse_append]
  exact leadMatch_append_self _ _

theorem keyEndsWith_bodyField_ne (i : ℕ) (fld v suf : String)
    (hfld : ∀ c ∈ fld.data, keyChar c = true)
    (hne : leadMatch (suf.data.reverse.take fld.data.reverse.length)
      fld.data.reverse = false) :
    keyEndsWith ((bodyKey i ++ fld) ++ "=" ++ v) suf = false := by
  rw [keyEndsWith_mk _ _ _ (bodyFieldKey_chars i fld hfld),
    String.data_append, List.reverse_append]
  exact leadMatch_append_false _ _ _ hne

theorem keyEndsWith_global (k v suf : String)
    (hk : ∀ c ∈ k.data, keyChar c = true) :
    keyEndsWith (k ++ "=" ++ v) suf = leadMatch suf.data.reverse k.data.reverse :=
  keyEndsWith_mk k v suf hk

/-- The header contains no key-value line whose key ends with any of the
per-body field suffixes: its four keys are `name`, `gravity`, `timeStep`
and `bodies`, and the suffix fails to lead-match each of their reversals
(hypotheses `h1`-`h4`, discharged by `decide` at each concrete suffix). -/
theorem kvWithSuffix_headerLines (n : ℕ) (suf : String)
    (h1 : leadMatch suf.data.reverse ("name" : String).data.reverse = false)
    (h2 : leadMatch suf.data.reverse ("gravity" : String).data.reverse = false)
    (h3 : leadMatch suf.data.reverse ("timeStep" : String).data.reverse = false)
    (h4 : leadMatch suf.data.reverse ("bodies" : String).data.reverse = false) :
    kvWithSuffix (headerLines n) suf = [] := by
  unfold kvWithSuffix
  rw [headerLines_eq]
  simp only [List.filter_cons, List.filter_nil,
    keyEndsWith_global "name" _ suf (by decide),
    keyEndsWith_global "gravity" _ suf (by decide),
    keyEndsWith_global "timeStep" _ suf (by decide),
    keyEndsWith_global "bodies" _ suf (by decide),
    h1, h2, h3, h4,
    show isKVLine "# Physics system setup" = false from by decide,
    show isKVLine "" = false from by decide,
    show isKVLine "# System name:" = false from by decide,
    show isKVLine "# Gravitational constant (unrealistic units)" = false from by decide,
    show isKVLine "# Simulation time step (seconds)" = false from by decide,
    show isKVLine "# Keys for defined bodies" = false from by decide,
    Bool.false_and, Bool.and_false]
  simp

theorem kvWithSuffix_bodyLines_name (i : ℕ) (m d : ℚ) (p v : ℚ × ℚ × ℚ) :
    kvWithSuffix (bodyLines i m d p v) ".name" =
      [(bodyKey i ++ ".name") ++ "=" ++ ("Body " ++ Nat.repr i)] := by
  unfold kvWithSuffix
  rw [bodyLines_eq]
  simp only [List.filter_cons, List.filter_nil,
    isKVLine_bodyComment i,
    isKVLine_bodyField i ".name" _ (by decide),
    isKVLine_bodyField i ".mass" _ (by decide),
    isKVLine_bodyField i ".density" _ (by decide),
    isKVLine_bodyField i ".position" _ (by decide),
    isKVLine_bodyField i ".velocity" _ (by decide),
    isKVLine_bodyField i ".color" _ (by decide),
    keyEndsWith_bodyField_self i ".name" _ (by decide),
    keyEndsWith_bodyField_ne i ".mass" _ ".name" (by decide) (by decide),
    keyEndsWith_bodyField_ne i ".density" _ ".name" (by decide) (by decide),
    keyEndsWith_bodyField_ne i ".position" _ ".name" (by decide) (by decide),
    keyEndsWith_bodyField_ne i ".velocity" _ ".name" (by decide) (by decide),
    keyEndsWith_bodyField_ne i ".color" _ ".name" (by decide) (by decide),
    show isKVLine "" = false from by decide,
    Bool.false_and, Bool.true_and, Bool.and_self]
  simp

theorem kvWithSuffix_bodyLines_mass (i : ℕ) (m d : ℚ) (p v : ℚ × ℚ × ℚ) :
    kvWithSuffix (bodyLines i m d p v) ".mass" =
      [(bodyKey i ++ ".mass") ++ "=" ++ fmt1 m] := by
  unfold kvWithSuffix
  rw [bodyLines_eq]
  simp only [List.filter_cons, List.filter_nil,
    isKVLine_bodyComment i,
    isKVLine_bodyField i ".name" _ (by decide),
    isKVLine_bodyField i ".mass" _ (by decide),
    isKVLine_bodyField i ".density" _ (by decide),
    isKVLine_bodyField i ".position" _ (by decide),
    isKVLine_bodyField i ".velocity" _ (by decide),
    isKVLine_bodyField i ".color" _ (by decide),
    keyEndsWith_bodyField_self i ".mass" _ (by decide),
    keyEndsWith_bodyField_ne i ".name" _ ".mass" (by decide) (by decide),
    keyEndsWith_bodyField_ne i ".density" _ ".mass" (by decide) (by decide),
    keyEndsWith_bodyField_ne i ".position" _ ".mass" (by decide) (by decide),
    keyEndsWith_bodyField_ne i ".velocity" _ ".mass" (by decide) (by decide),
    keyEndsWith_bodyField_ne i ".color" _ ".mass" (by decide) (by decide),
    show isKVLine "" = false from by decide,
    Bool.false_and, Bool.true_and, Bool.and_self]
  simp

theorem kvWithSuffix_bodyLines_density (i : ℕ) (m d : ℚ) (p v : ℚ × ℚ × ℚ) :
    kvWithSuffix (bodyLines i m d p v) ".density" =
      [(bodyKey i ++ ".density") ++ "=" ++ pyStr d] := by
  unfold kvWithSuffix
  rw [bodyLines_eq]
  simp only [List.filter_cons, List.filter_nil,
    isKVLine_bodyComment i,
    isKVLine_bodyField i ".name" _ (by decide),
    isKVLine_bodyField i ".mass" _ (by decide),
    isKVLine_bodyField i ".density" _ (by decide),
    isKVLine_bodyField i ".position" _ (by decide),
    isKVLine_bodyField i ".velocity" _ (by decide),
    isKVLine_bodyField i ".color" _ (by decide),
    keyEndsWith_bodyField_self i ".density" _ (by decide),
    keyEndsWith_bodyField_ne i ".name" _ ".density" (by decide) (by decide),
    keyEndsWith_bodyField_ne i ".mass" _ ".density" (by decide) (by decide),
    keyEndsWith_bodyField_ne i ".position" _ ".density" (by decide) (by decide),
    keyEndsWith_bodyField_ne i ".velocity" _ ".density" (by decide) (by decide),
    keyEndsWith_bodyField_ne i ".color" _ ".density" (by decide) (by decide),
    show isKVLine "" = false from by decide,
    Bool.false_and, Bool.true_and, Bool.and_self]
  simp

theorem kvWithSuffix_bodyLines_position (i : ℕ) (m d : ℚ) (p v : ℚ × ℚ × ℚ) :
    kvWithSuffix (bodyLines i m d p v) ".position" =
      [(bodyKey i ++ ".position") ++ "=" ++ fmt3 p] := by
  unfold kvWithSuffix
  rw [bodyLines_eq]
  simp only [List.filter_cons, List.filter_nil,
    isKVLine_bodyComment i,
    isKVLine_bodyField i ".name" _ (by decide),
    isKVLine_bodyField i ".mass" _ (by decide),
    isKVLine_bodyField i ".density" _ (by decide),
    isKVLine_bodyField i ".position" _ (by decide),
    isKVLine_bodyField i ".velocity" _ (by decide),
    isKVLine_bodyField i ".color" _ (by decide),
    keyEndsWith_bodyField_self i ".position" _ (by decide),
    keyEndsWith_bodyField_ne i ".name" _ ".position" (by decide) (by decide),
    keyEndsWith_bodyField_ne i ".mass" _ ".position" (by decide) (by decide),
    keyEndsWith_bodyField_ne i ".density" _ ".position" (by decide) (by decide),
    keyEndsWith_bodyField_ne i ".velocity" _ ".position" (by decide) (by decide),
    keyEndsWith_bodyField_ne i ".color" _ ".position" (by decide) (by decide),
    show isKVLine "" = false from by decide,
    Bool.false_and, Bool.true_and, Bool.and_self]
  simp

theorem kvWithSuffix_bodyLines_velocity (i : ℕ) (m d : ℚ) (p v : ℚ × ℚ × ℚ) :
    kvWithSuffix (bodyLines i m d p v) ".velocity" =
      [(bodyKey i ++ ".velocity") ++ "=" ++ fmt3 v] := by
  unfold kvWithSuffix
  rw [bodyLines_eq]
  simp only [List.filter_cons, List.filter_nil,
    isKVLine_bodyComment i,
    isKVLine_bodyField i ".name" _ (by decide),
    isKVLine_bodyField i ".mass" _ (by decide),
    isKVLine_bodyField i ".density" _ (by decide),
    isKVLine_bodyField i ".position" _ (by decide),
    isKVLine_bodyField i ".velocity" _ (by decide),
    isKVLine_bodyField i ".color" _ (by decide),
    keyEndsWith_bodyField_self i ".velocity" _ (by decide),
    keyEndsWith_bodyField_ne i ".name" _ ".velocity" (by decide) (by decide),
    keyEndsWith_bodyField_ne i ".mass" _ ".velocity" (by decide) (by decide),
    keyEndsWith_bodyField_ne i ".density" _ ".velocity" (by decide) (by decide),
    keyEndsWith_bodyField_ne i ".position" _ ".velocity" (by decide) (by decide),
    keyEndsWith_bodyField_ne i ".color" _ ".velocity" (by decide) (by decide),
    show isKVLine "" = false from by decide,
    Bool.false_and, Bool.true_and, Bool.and_self]
  simp

theorem kvWithSuffix_bodyLines_color (i : ℕ) (m d : ℚ) (p v : ℚ × ℚ × ℚ) :
    kvWithSuffix (bodyLines i m d p v) ".color" =
      [(bodyKey i ++ ".color") ++ "=" ++ "200,200,200"] := by
  unfold kvWithSuffix
  rw [bodyLines_eq]
  simp only [List.filter_cons, List.filter_nil,
    isKVLine_bodyComment i,
    isKVLine_bodyField i ".name" _ (by decide),
    isKVLine_bodyField i ".mass" _ (by decide),
    isKVLine_bodyField i ".density" _ (by decide),
    isKVLine_bodyField i ".position" _ (by decide),
    isKVLine_bodyField i ".velocity" _ (by decide),
    isKVLine_bodyField i ".color" _ (by decide),
    keyEndsWith_bodyField_self i ".color" _ (by decide),
    keyEndsWith_bodyField_ne i ".name" _ ".color" (by decide) (by decide),
    keyEndsWith_bodyField_ne i ".mass" _ ".color" (by decide) (by decide),
    keyEndsWith_bodyField_ne i ".density" _ ".color" (by decide) (by decide),
    keyEndsWith_bodyField_ne i ".position" _ ".color" (by decide) (by decide),
    keyEndsWith_bodyField_ne i ".velocity" _ ".color" (by decide) (by decide),
    show isKVLine "" = false from by decide,
    Bool.false_and, Bool.true_and, Bool.and_self]
  simp

theorem beq_false_of_dot (as bs : List Char) (h1 : '.' ∉ as) (h2 : '.' ∈ bs) :
    (as == bs) = false :=
  beq_false_of_ne (fun heq => h1 (heq ▸ h2))

theorem dot_mem_bodyField (i : ℕ) (fld : String) (h : '.' ∈ fld.data) :
    '.' ∈ (bodyKey i ++ fld).data := by
  rw [String.data_append]
  exact List.mem_append.mpr (Or.inr h)

theorem keyIs_bodyField_global (i : ℕ) (fld v k : String)
    (hfld : ∀ c ∈ fld.data, keyChar c = true)
    (hdotf : '.' ∈ fld.data) (hk : '.' ∉ k.data) :
    keyIs ((bodyKey i ++ fld) ++ "=" ++ v) k = false := by
  rw [keyIs_mk _ _ _ (bodyFieldKey_chars i fld hfld)]
  apply beq_false_of_ne
  intro heq
  exact hk (heq ▸ dot_mem_bodyField i fld hdotf)

/-- Comparing the key of the field line of body `j` against the key
`body{i}.fldT`: they agree exactly when `j = i` and the field tails agree. -/
theorem keyIs_bodyField_target (j i : ℕ) (fldL fldT vL : String)
    (hL : ∀ c ∈ fldL.data, keyChar c = true)
    (tL tT : List Char) (hLd : fldL.data = '.' :: tL) (hTd : fldT.data = '.' :: tT) :
    keyIs ((bodyKey j ++ fldL) ++ "=" ++ vL) (bodyKey i ++ fldT)
      = (decide (j = i) && (tL == tT)) := by
  rw [keyIs_mk _ _ _ (bodyFieldKey_chars j fldL hL),
    String.data_append, String.data_append, hLd, hTd]
  by_cases hij : j = i
  · subst hij
    by_cases ht : tL = tT
    · subst ht; simp
    · have hne : (bodyKey j).data ++ '.' :: tL ≠ (bodyKey j).data ++ '.' :: tT := by
        intro heq
        exact ht (key_split_inj j j tL tT heq).2
      simp [beq_false_of_ne hne, beq_false_of_ne ht]
  · have hne : (bodyKey j).data ++ '.' :: tL ≠ (bodyKey i).data ++ '.' :: tT := by
      intro heq
      exact hij (key_split_inj j i tL tT heq).1
    simp [beq_false_of_ne hne, hij]

theorem kvWithKey_bodyLines_global (i : ℕ) (m d : ℚ) (p v : ℚ × ℚ × ℚ)
    (k : String) (hk : '.' ∉ k.data) :
    kvWithKey (bodyLines i m d p v) k = [] := by
  unfold kvWithKey
  rw [bodyLines_eq]
  simp only [List.filter_cons, List.filter_nil,
    isKVLine_bodyComment i,
    keyIs_bodyField_global i ".name" _ k (by decide) (by decide) hk,
    keyIs_bodyField_global i ".mass" _ k (by decide) (by decide) hk,
    keyIs_bodyField_global i ".density" _ k (by decide) (by decide) hk,
    keyIs_bodyField_global i ".position" _ k (by decide) (by decide) hk,
    keyIs_bodyField_global i ".velocity" _ k (by decide) (by decide) hk,
    keyIs_bodyField_global i ".color" _ k (by decide) (by decide) hk,
    show isKVLine "" = false from by decide,
    Bool.false_and, Bool.and_false]
  simp

theorem kvWithKey_headerLines_name (n : ℕ) :
    kvWithKey (headerLines n) "name" =
      ["name" ++ "=" ++ ("Random System (" ++ Nat.repr n ++ " bodies)")] := by
  unfold kvWithKey
  rw [headerLines_eq]
  simp only [List.filter_cons, List.filter_nil,
    show isKVLine "# Physics system setup" = false from by decide,
    show isKVLine "" = false from by decide,
    show isKVLine "# System name:" = false from by decide,
    show isKVLine "# Gravitational constant (unrealistic units)" = false from by decide,
    show isKVLine "# Simulation time step (seconds)" = false from by decide,
    show isKVLine "# Keys for defined bodies" = false from by decide,
    isKVLine_mk "name" _ (by decide) (by decide),
    keyIs_mk "name" _ "name" (by decide),
    keyIs_mk "bodies" _ "name" (by decide),
    show ((("name" : String)).data == (("name" : String)).data) = true from by decide,
    show ((("bodies" : String)).data == (("name" : String)).data) = false from by decide,
    show keyIs ("gravity" ++ "=" ++ "10.0") "name" = false from by decide,
    show keyIs ("timeStep" ++ "=" ++ "0.004") "name" = false from by decide,
    Bool.false_and, Bool.and_false, Bool.true_and]
  simp

theorem kvWithKey_headerLines_gravity (n : ℕ) :
    kvWithKey (headerLines n) "gravity" = ["gravity" ++ "=" ++ "10.0"] := by
  unfold kvWithKey
  rw [headerLines_eq]
  simp only [List.filter_cons, List.filter_nil,
    show isKVLine "# Physics system setup" = false from by decide,
    show isKVLine "" = false from by decide,
    show isKVLine "# System name:" = false from by decide,
    show isKVLine "# Gravitational constant (unrealistic units)" = false from by decide,
    show isKVLine "# Simulation time step (seconds)" = false from by decide,
    show isKVLine "# Keys for defined bodies" = false from by decide,
    keyIs_mk "name" _ "gravity" (by decide),
    keyIs_mk "bodies" _ "gravity" (by decide),
    show ((("name" : String)).data == (("gravity" : String)).data) = false from by decide,
    show ((("bodies" : String)).data == (("gravity" : String)).data) = false from by decide,
    show keyIs ("gravity" ++ "=" ++ "10.0") "gravity" = true from by decide,
    show isKVLine ("gravity" ++ "=" ++ "10.0") = true from by decide,
    show keyIs ("timeStep" ++ "=" ++ "0.004") "gravity" = false from by decide,
    Bool.false_and, Bool.and_false, Bool.true_and]
  simp

theorem kvWithKey_headerLines_timeStep (n : ℕ) :
    kvWithKey (headerLines n) "timeStep" = ["timeStep" ++ "=" ++ "0.004"] := by
  unfold kvWithKey
  rw [headerLines_eq]
  simp only [List.filter_cons, List.filter_nil,
    show isKVLine "# Physics system setup" = false from by decide,
    show isKVLine "" = false from by decide,
    show isKVLine "# System name:" = false from by decide,
    show isKVLine "# Gravitational constant (unrealistic units)" = false from by decide,
    show isKVLine "# Simulation time step (seconds)" = false from by decide,
    show isKVLine "# Keys for defined bodies" = false from by decide,
    keyIs_mk "name" _ "timeStep" (by decide),
    keyIs_mk "bodies" _ "timeStep" (by decide),
    show ((("name" : String)).data == (("timeStep" : String)).data) = false from by decide,
    show ((("bodies" : String)).data == (("timeStep" : String)).data) = false from by decide,
    show keyIs ("gravity" ++ "=" ++ "10.0") "timeStep" = false from by decide,
    show keyIs ("timeStep" ++ "=" ++ "0.004") "timeStep" = true from by decide,
    show isKVLine ("timeStep" ++ "=" ++ "0.004") = true from by decide,
    Bool.false_and, Bool.and_false, Bool.true_and]
  simp

theorem kvWithKey_headerLines_bodies (n : ℕ) :
    kvWithKey (headerLines n) "bodies" =
      ["bodies" ++ "=" ++ String.intercalate " " ((List.range n).map bodyKey)] := by
  unfold kvWithKey
  rw [headerLines_eq]
  simp only [List.filter_cons, List.filter_nil,
    show isKVLine "# Physics system setup" = false from by decide,
    show isKVLine "" = false from by decide,
    show isKVLine "# System name:" = false from by decide,
    show isKVLine "# Gravitational constant (unrealistic units)" = false from by decide,
    show isKVLine "# Simulation time step (seconds)" = false from by decide,
    show isKVLine "# Keys for defined bodies" = false from by decide,
    isKVLine_mk "bodies" _ (by decide) (by decide),
    keyIs_mk "name" _ "bodies" (by decide),
    keyIs_mk "bodies" _ "bodies" (by decide),
    show ((("name" : String)).data == (("bodies" : String)).data) = false from by decide,
    show ((("bodies" : String)).data == (("bodies" : String)).data) = true from by decide,
    show keyIs ("gravity" ++ "=" ++ "10.0") "bodies" = false from by decide,
    show keyIs ("timeStep" ++ "=" ++ "0.004") "bodies" = false from by decide,
    Bool.false_and, Bool.and_false, Bool.true_and]
  simp

theorem kvWithKey_headerLines_bodyField (n i : ℕ) (fldT : String)
    (hdot : '.' ∈ fldT.data) :
    kvWithKey (headerLines n) (bodyKey i ++ fldT) = [] := by
  unfold kvWithKey
  rw [headerLines_eq]
  simp only [List.filter_cons, List.filter_nil,
    show isKVLine "# Physics system setup" = false from by decide,
    show isKVLine "" = false from by decide,
    show isKVLine "# System name:" = false from by decide,
    show isKVLine "# Gravitational constant (unrealistic units)" = false from by decide,
    show isKVLine "# Simulation time step (seconds)" = false from by decide,
    show isKVLine "# Keys for defined bodies" = false from by decide,
    keyIs_mk "name" _ (bodyKey i ++ fldT) (by decide),
    keyIs_mk "gravity" _ (bodyKey i ++ fldT) (by decide),
    keyIs_mk "timeStep" _ (bodyKey i ++ fldT) (by decide),
    keyIs_mk "bodies" _ (bodyKey i ++ fldT) (by decide),
    beq_false_of_dot ("name" : String).data ((bodyKey i ++ fldT)).data
      (by decide) (dot_mem_bodyField i fldT hdot),
    beq_false_of_dot ("gravity" : String).data ((bodyKey i ++ fldT)).data
      (by decide) (dot_mem_bodyField i fldT hdot),
    beq_false_of_dot ("timeStep" : String).data ((bodyKey i ++ fldT)).data
      (by decide) (dot_mem_bodyField i fldT hdot),
    beq_false_of_dot ("bodies" : String).data ((bodyKey i ++ fldT)).data
      (by decide) (dot_mem_bodyField i fldT hdot),
    Bool.false_and, Bool.and_false]
  simp

theorem kvWithKey_bodyLines_tname (j i : ℕ) (m d : ℚ) (p v : ℚ × ℚ × ℚ) :
    kvWithKey (bodyLines j m d p v) (bodyKey i ++ ".name") =
      if j = i then [(bodyKey j ++ ".name") ++ "=" ++ ("Body " ++ Nat.repr j)] else [] := by
  unfold kvWithKey
  rw [bodyLines_eq]
  simp only [List.filter_cons, List.filter_nil,
    isKVLine_bodyComment j,
    isKVLine_bodyField j ".name" _ (by decide),
    keyIs_bodyField_target j i ".name" ".name" _ (by decide)
      ['n','a','m','e'] ['n','a','m','e'] rfl rfl,
    keyIs_bodyField_target j i ".mass" ".name" _ (by decide)
      ['m','a','s','s'] ['n','a','m','e'] rfl rfl,
    keyIs_bodyField_target j i ".density" ".name" _ (by decide)
      ['d','e','n','s','i','t','y'] ['n','a','m','e'] rfl rfl,
    keyIs_bodyField_target j i ".position" ".name" _ (by decide)
      ['p','o','s','i','t','i','o','n'] ['n','a','m','e'] rfl rfl,
    keyIs_bodyField_target j i ".velocity" ".name" _ (by decide)
      ['v','e','l','o','c','i','t','y'] ['n','a','m','e'] rfl rfl,
    keyIs_bodyField_target j i ".color" ".name" _ (by decide)
      ['c','o','l','o','r'] ['n','a','m','e'] rfl rfl,
    show ((['n','a','m','e'] : List Char) == ['n','a','m','e']) = true from by decide,
    show ((['m','a','s','s'] : List Char) == ['n','a','m','e']) = false from by decide,
    show ((['d','e','n','s','i','t','y'] : List Char) == ['n','a','m','e']) = false from by decide,
    show ((['p','o','s','i','t','i','o','n'] : List Char) == ['n','a','m','e']) = false from by decide,
    show ((['v','e','l','o','c','i','t','y'] : List Char) == ['n','a','m','e']) = false from by decide,
    show ((['c','o','l','o','r'] : List Char) == ['n','a','m','e']) = false from by decide,
    show isKVLine "" = false from by decide,
    Bool.false_and, Bool.and_false, Bool.and_true, Bool.true_and]
  by_cases hij : j = i
  · simp [hij]
  · simp [hij]

theorem kvWithKey_bodyLines_tmass (j i : ℕ) (m d : ℚ) (p v : ℚ × ℚ × ℚ) :
    kvWithKey (bodyLines j m d p v) (bodyKey i ++ ".mass") =
      if j = i then [(bodyKey j ++ ".mass") ++ "=" ++ fmt1 m] else [] := by
  unfold kvWithKey
  rw [bodyLines_eq]
  simp only [List.filter_cons, List.filter_nil,
    isKVLine_bodyComment j,
    isKVLine_bodyField j ".mass" _ (by decide),
    keyIs_bodyField_target j i ".name" ".mass" _ (by decide)
      ['n','a','m','e'] ['m','a','s','s'] rfl rfl,
    keyIs_bodyField_target j i ".mass" ".mass" _ (by decide)
      ['m','a','s','s'] ['m','a','s','s'] rfl rfl,
    keyIs_bodyField_target j i ".density" ".mass" _ (by decide)
      ['d','e','n','s','i','t','y'] ['m','a','s','s'] rfl rfl,
    keyIs_bodyField_target j i ".position" ".mass" _ (by decide)
      ['p','o','s','i','t','i','o','n'] ['m','a','s','s'] rfl rfl,
    keyIs_bodyField_target j i ".velocity" ".mass" _ (by decide)
      ['v','e','l','o','c','i','t','y'] ['m','a','s','s'] rfl rfl,
    keyIs_bodyField_target j i ".color" ".mass" _ (by decide)
      ['c','o','l','o','r'] ['m','a','s','s'] rfl rfl,
    show ((['m','a','s','s'] : List Char) == ['m','a','s','s']) = true from by decide,
    show ((['n','a','m','e'] : List Char) == ['m','a','s','s']) = false from by decide,
    show ((['d','e','n','s','i','t','y'] : List Char) == ['m','a','s','s']) = false from by decide,
    show ((['p','o','s','i','t','i','o','n'] : List Char) == ['m','a','s','s']) = false from by decide,
    show ((['v','e','l','o','c','i','t','y'] : List Char) == ['m','a','s','s']) = false from by decide,
    show ((['c','o','l','o','r'] : List Char) == ['m','a','s','s']) = false from by decide,
    show isKVLine "" = false from by decide,
    Bool.false_and, Bool.and_false, Bool.and_true, Bool.true_and]
  by_cases hij : j = i
  · simp [hij]
  · simp [hij]

theorem kvWithKey_bodyLines_tdensity (j i : ℕ) (m d : ℚ) (p v : ℚ × ℚ × ℚ) :
    kvWithKey (bodyLines j m d p v) (bodyKey i ++ ".density") =
      if j = i then [(bodyKey j ++ ".density") ++ "=" ++ pyStr d] else [] := by
  unfold kvWithKey
  rw [bodyLines_eq]
  simp only [List.filter_cons, List.filter_nil,
    isKVLine_bodyComment j,
    isKVLine_bodyField j ".density" _ (by decide),
    keyIs_bodyField_target j i ".name" ".density" _ (by decide)
      ['n','a','m','e'] ['d','e','n','s','i','t','y'] rfl rfl,
    keyIs_bodyField_target j i ".mass" ".density" _ (by decide)
      ['m','a','s','s'] ['d','e','n','s','i','t','y'] rfl rfl,
    keyIs_bodyField_target j i ".density" ".density" _ (by decide)
      ['d','e','n','s','i','t','y'] ['d','e','n','s','i','t','y'] rfl rfl,
    keyIs_bodyField_target j i ".position" ".density" _ (by decide)
      ['p','o','s','i','t','i','o','n'] ['d','e','n','s','i','t','y'] rfl rfl,
    keyIs_bodyField_target j i ".velocity" ".density" _ (by decide)
      ['v','e','l','o','c','i','t','y'] ['d','e','n','s','i','t','y'] rfl rfl,
    keyIs_bodyField_target j i ".color" ".density" _ (by decide)
      ['c','o','l','o','r'] ['d','e','n','s','i','t','y'] rfl rfl,
    show ((['d','e','n','s','i','t','y'] : List Char) == ['d','e','n','s','i','t','y']) = true from by decide,
    show ((['n','a','m','e'] : List Char) == ['d','e','n','s','i','t','y']) = false from by decide,
    show ((['m','a','s','s'] : List Char) == ['d','e','n','s','i','t','y']) = false from by decide,
    show ((['p','o','s','i','t','i','o','n'] : List Char) == ['d','e','n','s','i','t','y']) = false from by decide,
    show ((['v','e','l','o','c','i','t','y'] : List Char) == ['d','e','n','s','i','t','y']) = false from by decide,
    show ((['c','o','l','o','r'] : List Char) == ['d','e','n','s','i','t','y']) = false from by decide,
    show isKVLine "" = false from by decide,
    Bool.false_and, Bool.and_false, Bool.and_true, Bool.true_and]
  by_cases hij : j = i
  · simp [hij]
  · simp [hij]

theorem kvWithKey_bodyLines_tposition (j i : ℕ) (m d : ℚ) (p v : ℚ × ℚ × ℚ) :
    kvWithKey (bodyLines j m d p v) (bodyKey i ++ ".position") =
      if j = i then [(bodyKey j ++ ".position") ++ "=" ++ fmt3 p] else [] := by
  unfold kvWithKey
  rw [bodyLines_eq]
  simp only [List.filter_cons, List.filter_nil,
    isKVLine_bodyComment j,
    isKVLine_bodyField j ".position" _ (by decide),
    keyIs_bodyField_target j i ".name" ".position" _ (by decide)
      ['n','a','m','e'] ['p','o','s','i','t','i','o','n'] rfl rfl,
    keyIs_bodyField_target j i ".mass" ".position" _ (by decide)
      ['m','a','s','s'] ['p','o','s','i','t','i','o','n'] rfl rfl,
    keyIs_bodyField_target j i ".density" ".position" _ (by decide)
      ['d','e','n','s','i','t','y'] ['p','o','s','i','t','i','o','n'] rfl rfl,
    keyIs_bodyField_target j i ".position" ".position" _ (by decide)
      ['p','o','s','i','t','i','o','n'] ['p','o','s','i','t','i','o','n'] rfl rfl,
    keyIs_bodyField_target j i ".velocity" ".position" _ (by decide)
      ['v','e','l','o','c','i','t','y'] ['p','o','s','i','t','i','o','n'] rfl rfl,
    keyIs_bodyField_target j i ".color" ".position" _ (by decide)
      ['c','o','l','o','r'] ['p','o','s','i','t','i','o','n'] rfl rfl,
    show ((['p','o','s','i','t','i','o','n'] : List Char) == ['p','o','s','i','t','i','o','n']) = true from by decide,
    show ((['n','a','m','e'] : List Char) == ['p','o','s','i','t','i','o','n']) = false from by decide,
    show ((['m','a','s','s'] : List Char) == ['p','o','s','i','t','i','o','n']) = false from by decide,
    show ((['d','e','n','s','i','t','y'] : List Char) == ['p','o','s','i','t','i','o','n']) = false from by decide,
    show ((['v','e','l','o','c','i','t','y'] : List Char) == ['p','o','s','i','t','i','o','n']) = false from by decide,
    show ((['c','o','l','o','r'] : List Char) == ['p','o','s','i','t','i','o','n']) = false from by decide,
    show isKVLine "" = false from by decide,
    Bool.false_and, Bool.and_false, Bool.and_true, Bool.true_and]
  by_cases hij : j = i
  · simp [hij]
  · simp [hij]

theorem kvWithKey_bodyLines_tvelocity (j i : ℕ) (m d : ℚ) (p v : ℚ × ℚ × ℚ) :
    kvWithKey (bodyLines j m d p v) (bodyKey i ++ ".velocity") =
      if j = i then [(bodyKey j ++ ".velocity") ++ "=" ++ fmt3 v] else [] := by
  unfold kvWithKey
  rw [bodyLines_eq]
  simp only [List.filter_cons, List.filter_nil,
    isKVLine_bodyComment j,
    isKVLine_bodyField j ".velocity" _ (by decide),
    keyIs_bodyField_target j i ".name" ".velocity" _ (by decide)
      ['n','a','m','e'] ['v','e','l','o','c','i','t','y'] rfl rfl,
    keyIs_bodyField_target j i ".mass" ".velocity" _ (by decide)
      ['m','a','s','s'] ['v','e','l','o','c','i','t','y'] rfl rfl,
    keyIs_bodyField_target j i ".density" ".velocity" _ (by decide)
      ['d','e','n','s','i','t','y'] ['v','e','l','o','c','i','t','y'] rfl rfl,
    keyIs_bodyField_target j i ".position" ".velocity" _ (by decide)
      ['p','o','s','i','t','i','o','n'] ['v','e','l','o','c','i','t','y'] rfl rfl,
    keyIs_bodyField_target j i ".velocity" ".velocity" _ (by decide)
      ['v','e','l','o','c','i','t','y'] ['v','e','l','o','c','i','t','y'] rfl rfl,
    keyIs_bodyField_target j i ".color" ".velocity" _ (by decide)
      ['c','o','l','o','r'] ['v','e','l','o','c','i','t','y'] rfl rfl,
    show ((['v','e','l','o','c','i','t','y'] : List Char) == ['v','e','l','o','c','i','t','y']) = true from by decide,
    show ((['n','a','m','e'] : List Char) == ['v','e','l','o','c','i','t','y']) = false from by decide,
    show ((['m','a','s','s'] : List Char) == ['v','e','l','o','c','i','t','y']) = false from by decide,
    show ((['d','e','n','s','i','t','y'] : List Char) == ['v','e','l','o','c','i','t','y']) = false from by decide,
    show ((['p','o','s','i','t','i','o','n'] : List Char) == ['v','e','l','o','c','i','t','y']) = false from by decide,
    show ((['c','o','l','o','r'] : List Char) == ['v','e','l','o','c','i','t','y']) = false from by decide,
    show isKVLine "" = false from by decide,
    Bool.false_and, Bool.and_false, Bool.and_true, Bool.true_and]
  by_cases hij : j = i
  · simp [hij]
  · simp [hij]

/-! ### Assembling filters over the whole document -/

theorem countKeySuffix_eq (lines : List String) (suf : String) :
    countKeySuffix lines suf = (kvWithSuffix lines suf).length := rfl

theorem countKey_eq (lines : List String) (k : String) :
    countKey lines k = (kvWithKey lines k).length := rfl

theorem flatMap_range_nil (n : ℕ) (g : ℕ → List String)
    (h : ∀ j, j < n → g j = []) : (List.range n).flatMap g = [] := by
  induction n with
  | zero => simp
  | succ k ih =>
    rw [List.range_succ, List.flatMap_append, ih (fun j hj => h j (by omega))]
    simp [h k (by omega)]

theorem flatMap_range_eq_map (n : ℕ) (g : ℕ → List String) (f : ℕ → String)
    (h : ∀ i, i < n → g i = [f i]) :
    (List.range n).flatMap g = (List.range n).map f := by
  induction n with
  | zero => simp
  | succ k ih =>
    rw [List.range_succ, List.flatMap_append, List.map_append,
      ih (fun i hi => h i (by omega))]
    simp [h k (by omega)]

theorem flatMap_range_single (n i0 : ℕ) (g : ℕ → List String) (x : String)
    (h0 : i0 < n) (hat : g i0 = [x])
    (hother : ∀ j, j < n → j ≠ i0 → g j = []) :
    (List.range n).flatMap g = [x] := by
  induction n with
  | zero => omega
  | succ k ih =>
    rw [List.range_succ, List.flatMap_append]
    by_cases hk : i0 = k
    · subst hk
      rw [flatMap_range_nil _ _ (fun j hj => hother j (by omega) (by omega))]
      simp [hat]
    · rw [ih (by omega) (fun j hj hne => hother j (by omega) hne)]
      simp [hother k (by omega) (fun he => hk he.symm)]

theorem kvWithSuffix_generate (n : ℕ) (ps vs : List (ℚ × ℚ × ℚ)) (ms : List ℚ)
    (d : ℚ) (suf : String) :
    kvWithSuffix (generateBodiesLines n ps vs ms d) suf =
      kvWithSuffix (headerLines n) suf ++ (List.range n).flatMap (fun i =>
        kvWithSuffix (bodyLines i (ms.getD i 0) d
          (ps.getD i (0, 0, 0)) (vs.getD i (0, 0, 0))) suf) := by
  unfold kvWithSuffix generateBodiesLines
  rw [List.filter_append, List.filter_flatMap]

theorem kvWithKey_generate (n : ℕ) (ps vs : List (ℚ × ℚ × ℚ)) (ms : List ℚ)
    (d : ℚ) (k : String) :
    kvWithKey (generateBodiesLines n ps vs ms d) k =
      kvWithKey (headerLines n) k ++ (List.range n).flatMap (fun i =>
        kvWithKey (bodyLines i (ms.getD i 0) d
          (ps.getD i (0, 0, 0)) (vs.getD i (0, 0, 0))) k) := by
  unfold kvWithKey generateBodiesLines
  rw [List.filter_append, List.filter_flatMap]

theorem kvWithSuffix_doc_name (n : ℕ) (ps vs : List (ℚ × ℚ × ℚ)) (ms : List ℚ) (d : ℚ) :
    kvWithSuffix (generateBodiesLines n ps vs ms d) ".name" =
      (List.range n).map (fun i => (bodyKey i ++ ".name") ++ "=" ++ ("Body " ++ Nat.repr i)) := by
  rw [kvWithSuffix_generate,
    kvWithSuffix_headerLines n ".name" (by decide) (by decide) (by decide) (by decide),
    flatMap_range_eq_map n _ _ (fun i hi => kvWithSuffix_bodyLines_name i _ _ _ _)]
  simp

theorem kvWithSuffix_doc_mass (n : ℕ) (ps vs : List (ℚ × ℚ × ℚ)) (ms : List ℚ) (d : ℚ) :
    kvWithSuffix (generateBodiesLines n ps vs ms d) ".mass" =
      (List.range n).map (fun i => (bodyKey i ++ ".mass") ++ "=" ++ fmt1 (ms.getD i 0)) := by
  rw [kvWithSuffix_generate,
    kvWithSuffix_headerLines n ".mass" (by decide) (by decide) (by decide) (by decide),
    flatMap_range_eq_map n _ _ (fun i hi => kvWithSuffix_bodyLines_mass i _ _ _ _)]
  simp

theorem kvWithSuffix_doc_density (n : ℕ) (ps vs : List (ℚ × ℚ × ℚ)) (ms : List ℚ) (d : ℚ) :
    kvWithSuffix (generateBodiesLines n ps vs ms d) ".density" =
      (List.range n).map (fun i => (bodyKey i ++ ".density") ++ "=" ++ pyStr d) := by
  rw [kvWithSuffix_generate,
    kvWithSuffix_headerLines n ".density" (by decide) (by decide) (by decide) (by decide),
    flatMap_range_eq_map n _ _ (fun i hi => kvWithSuffix_bodyLines_density i _ _ _ _)]
  simp

theorem kvWithSuffix_doc_position (n : ℕ) (ps vs : List (ℚ × ℚ × ℚ)) (ms : List ℚ) (d : ℚ) :
    kvWithSuffix (generateBodiesLines n ps vs ms d) ".position" =
      (List.range n).map (fun i =>
        (bodyKey i ++ ".position") ++ "=" ++ fmt3 (ps.getD i (0, 0, 0))) := by
  rw [kvWithSuffix_generate,
    kvWithSuffix_headerLines n ".position" (by decide) (by decide) (by decide) (by decide),
    flatMap_range_eq_map n _ _ (fun i hi => kvWithSuffix_bodyLines_position i _ _ _ _)]
  simp

theorem kvWithSuffix_doc_velocity (n : ℕ) (ps vs : List (ℚ × ℚ × ℚ)) (ms : List ℚ) (d : ℚ) :
    kvWithSuffix (generateBodiesLines n ps vs ms d) ".velocity" =
      (List.range n).map (fun i =>
        (bodyKey i ++ ".velocity") ++ "=" ++ fmt3 (vs.getD i (0, 0, 0))) := by
  rw [kvWithSuffix_generate,
    kvWithSuffix_headerLines n ".velocity" (by decide) (by decide) (by decide) (by decide),
    flatMap_range_eq_map n _ _ (fun i hi => kvWithSuffix_bodyLines_velocity i _ _ _ _)]
  simp

theorem kvWithSuffix_doc_color (n : ℕ) (ps vs : List (ℚ × ℚ × ℚ)) (ms : List ℚ) (d : ℚ) :
    kvWithSuffix (generateBodiesLines n ps vs ms d) ".color" =
      (List.range n).map (fun i => (bodyKey i ++ ".color") ++ "=" ++ "200,200,200") := by
  rw [kvWithSuffix_generate,
    kvWithSuffix_headerLines n ".color" (by decide) (by decide) (by decide) (by decide),
    flatMap_range_eq_map n _ _ (fun i hi => kvWithSuffix_bodyLines_color i _ _ _ _)]
  simp

theorem kvWithKey_doc_name (n : ℕ) (ps vs : List (ℚ × ℚ × ℚ)) (ms : List ℚ) (d : ℚ) :
    kvWithKey (generateBodiesLines n ps vs ms d) "name" =
      ["name" ++ "=" ++ ("Random System (" ++ Nat.repr n ++ " bodies)")] := by
  rw [kvWithKey_generate, kvWithKey_headerLines_name,
    flatMap_range_nil n _ (fun j hj => kvWithKey_bodyLines_global j _ _ _ _ "name" (by decide))]
  simp

theorem kvWithKey_doc_gravity (n : ℕ) (ps vs : List (ℚ × ℚ × ℚ)) (ms : List ℚ) (d : ℚ) :
    kvWithKey (generateBodiesLines n ps vs ms d) "gravity" = ["gravity" ++ "=" ++ "10.0"] := by
  rw [kvWithKey_generate, kvWithKey_headerLines_gravity,
    flatMap_range_nil n _ (fun j hj => kvWithKey_bodyLines_global j _ _ _ _ "gravity" (by decide))]
  simp

theorem kvWithKey_doc_timeStep (n : ℕ) (ps vs : List (ℚ × ℚ × ℚ)) (ms : List ℚ) (d : ℚ) :
    kvWithKey (generateBodiesLines n ps vs ms d) "timeStep" = ["timeStep" ++ "=" ++ "0.004"] := by
  rw [kvWithKey_generate, kvWithKey_headerLines_timeStep,
    flatMap_range_nil n _ (fun j hj => kvWithKey_bodyLines_global j _ _ _ _ "timeStep" (by decide))]
  simp

theorem kvWithKey_doc_bodies (n : ℕ) (ps vs : List (ℚ × ℚ × ℚ)) (ms : List ℚ) (d : ℚ) :
    kvWithKey (generateBodiesLines n ps vs ms d) "bodies" =
      ["bodies" ++ "=" ++ String.intercalate " " ((List.range n).map bodyKey)] := by
  rw [kvWithKey_generate, kvWithKey_headerLines_bodies,
    flatMap_range_nil n _ (fun j hj => kvWithKey_bodyLines_global j _ _ _ _ "bodies" (by decide))]
  simp

theorem kvWithKey_doc_tname (n i : ℕ) (ps vs : List (ℚ × ℚ × ℚ)) (ms : List ℚ) (d : ℚ)
    (hi : i < n) :
    kvWithKey (generateBodiesLines n ps vs ms d) (bodyKey i ++ ".name") =
      [(bodyKey i ++ ".name") ++ "=" ++ ("Body " ++ Nat.repr i)] := by
  rw [kvWithKey_generate, kvWithKey_headerLines_bodyField n i ".name" (by decide),
    flatMap_range_single n i _ ((bodyKey i ++ ".name") ++ "=" ++ ("Body " ++ Nat.repr i)) hi
      (by rw [kvWithKey_bodyLines_tname i i]; simp)
      (fun j hj hne => by rw [kvWithKey_bodyLines_tname j i]; simp [hne])]
  simp

theorem kvWithKey_doc_tmass (n i : ℕ) (ps vs : List (ℚ × ℚ × ℚ)) (ms : List ℚ) (d : ℚ)
    (hi : i < n) :
    kvWithKey (generateBodiesLines n ps vs ms d) (bodyKey i ++ ".mass") =
      [(bodyKey i ++ ".mass") ++ "=" ++ fmt1 (ms.getD i 0)] := by
  rw [kvWithKey_generate, kvWithKey_headerLines_bodyField n i ".mass" (by decide),
    flatMap_range_single n i _ ((bodyKey i ++ ".mass") ++ "=" ++ fmt1 (ms.getD i 0)) hi
      (by rw [kvWithKey_bodyLines_tmass i i]; simp)
      (fun j hj hne => by rw [kvWithKey_bodyLines_tmass j i]; simp [hne])]
  simp

theorem kvWithKey_doc_tdensity (n i : ℕ) (ps vs : List (ℚ × ℚ × ℚ)) (ms : List ℚ) (d : ℚ)
    (hi : i < n) :
    kvWithKey (generateBodiesLines n ps vs ms d) (bodyKey i ++ ".density") =
      [(bodyKey i ++ ".density") ++ "=" ++ pyStr d] := by
  rw [kvWithKey_generate, kvWithKey_headerLines_bodyField n i ".density" (by decide),
    flatMap_range_single n i _ ((bodyKey i ++ ".density") ++ "=" ++ pyStr d) hi
      (by rw [kvWithKey_bodyLines_tdensity i i]; simp)
      (fun j hj hne => by rw [kvWithKey_bodyLines_tdensity j i]; simp [hne])]
  simp

theorem kvWithKey_doc_tposition (n i : ℕ) (ps vs : List (ℚ × ℚ × ℚ)) (ms : List ℚ) (d : ℚ)
    (hi : i < n) :
    kvWithKey (generateBodiesLines n ps vs ms d) (bodyKey i ++ ".position") =
      [(bodyKey i ++ ".position") ++ "=" ++ fmt3 (ps.getD i (0, 0, 0))] := by
  rw [kvWithKey_generate, kvWithKey_headerLines_bodyField n i ".position" (by decide),
    flatMap_range_single n i _ ((bodyKey i ++ ".position") ++ "=" ++ fmt3 (ps.getD i (0, 0, 0))) hi
      (by rw [kvWithKey_bodyLines_tposition i i]; simp)
      (fun j hj hne => by rw [kvWithKey_bodyLines_tposition j i]; simp [hne])]
  simp

theorem kvWithKey_doc_tvelocity (n i : ℕ) (ps vs : List (ℚ × ℚ × ℚ)) (ms : List ℚ) (d : ℚ)
    (hi : i < n) :
    kvWithKey (generateBodiesLines n ps vs ms d) (bodyKey i ++ ".velocity") =
      [(bodyKey i ++ ".velocity") ++ "=" ++ fmt3 (vs.getD i (0, 0, 0))] := by
  rw [kvWithKey_generate, kvWithKey_headerLines_bodyField n i ".velocity" (by decide),
    flatMap_range_single n i _ ((bodyKey i ++ ".velocity") ++ "=" ++ fmt3 (vs.getD i (0, 0, 0))) hi
      (by rw [kvWithKey_bodyLines_tvelocity i i]; simp)
      (fun j hj hne => by rw [kvWithKey_bodyLines_tvelocity j i]; simp [hne])]
  simp

/-! ### Joining and splitting: `' '.join`, `','`-triples, `"\n".join` -/

theorem intercalate_go_data (s : String) : ∀ (as : List String) (a : String),
    (String.intercalate.go a s as).data =
      a.data ++ as.flatMap (fun u => s.data ++ u.data) := by
  intro as
  induction as with
  | nil => intro a; simp [String.intercalate.go]
  | cons b bs ih =>
    intro a
    rw [String.intercalate.go, ih]
    simp [List.append_assoc]

theorem intercalate_data (s : String) (L : List String) :
    (String.intercalate s L).data = sepJoin s.data (L.map String.data) := by
  cases L with
  | nil => rfl
  | cons a as =>
    show (String.intercalate.go a s as).data = _
    rw [intercalate_go_data]
    simp [sepJoin, List.flatMap_map]

theorem splitOnC_single (sep : Char) (t : List Char)
    (hne : t ≠ []) (hsep : sep ∉ t) : splitOnC sep t = [t] := by
  induction t with
  | nil => exact absurd rfl hne
  | cons c cs ih =>
    have hc : (c == sep) = false := by
      simp only [beq_eq_false_iff_ne, ne_eq]
      intro he
      exact hsep (he ▸ List.mem_cons_self c cs)
    cases cs with
    | nil => simp [splitOnC, hc]
    | cons c' cs' =>
      rw [splitOnC]
      rw [ih (by simp) (fun hmem => hsep (List.mem_cons_of_mem c hmem))]
      simp [hc]

theorem splitOnC_append_sep (sep : Char) (t rest : List Char)
    (hne : t ≠ []) (hsep : sep ∉ t) :
    splitOnC sep (t ++ sep :: rest) = t :: splitOnC sep rest := by
  induction t with
  | nil => exact absurd rfl hne
  | cons c cs ih =>
    have hc : (c == sep) = false := by
      simp only [beq_eq_false_iff_ne, ne_eq]
      intro he
      exact hsep (he ▸ List.mem_cons_self c cs)
    cases cs with
    | nil =>
      rw [List.cons_append, List.nil_append, splitOnC]
      simp [hc, splitOnC]
    | cons c' cs' =>
      rw [List.cons_append, splitOnC]
      rw [ih (by simp) (fun hmem => hsep (List.mem_cons_of_mem c hmem))]
      simp [hc]

theorem splitOnC_sepJoin (sep : Char) (ts : List (List Char))
    (h : ∀ t ∈ ts, t ≠ [] ∧ sep ∉ t) :
    splitOnC sep (sepJoin [sep] ts) = ts := by
  induction ts with
  | nil => rfl
  | cons t us ih =>
    rcases h t (List.mem_cons_self t us) with ⟨hne, hsep⟩
    cases us with
    | nil =>
      show splitOnC sep (t ++ [].flatMap fun u => [sep] ++ u) = [t]
      simp only [List.flatMap_nil, List.append_nil]
      exact splitOnC_single sep t hne hsep
    | cons u vs =>
      show splitOnC sep (t ++ (u :: vs).flatMap fun w => [sep] ++ w) = t :: u :: vs
      have hjoin : ((u :: vs).flatMap fun w => [sep] ++ w) =
          sep :: sepJoin [sep] (u :: vs) := by
        show ([sep] ++ u) ++ vs.flatMap (fun w => [sep] ++ w) = _
        simp [sepJoin]
      rw [hjoin, splitOnC_append_sep sep t _ hne hsep,
        ih (fun w hw => h w (List.mem_cons_of_mem t hw))]

theorem splitLines_ne_nil (cs : List Char) : splitLines cs ≠ [] := by
  induction cs with
  | nil => simp [splitLines]
  | cons c cs ih =>
    rw [splitLines]
    by_cases hc : (c == '\n') = true
    · simp [hc]
    · simp only [Bool.not_eq_true] at hc
      cases hsp : splitLines cs with
      | nil => exact absurd hsp ih
      | cons g gs => simp [hc]

theorem splitLines_single (t : List Char) (h : '\n' ∉ t) : splitLines t = [t] := by
  induction t with
  | nil => rfl
  | cons c cs ih =>
    have hc : (c == '\n') = false := by
      simp only [beq_eq_false_iff_ne, ne_eq]
      intro he
      exact h (he ▸ List.mem_cons_self c cs)
    rw [splitLines, ih (fun hmem => h (List.mem_cons_of_mem c hmem))]
    simp [hc]

theorem splitLines_append (t rest : List Char) (h : '\n' ∉ t) :
    splitLines (t ++ '\n' :: rest) = t :: splitLines rest := by
  induction t with
  | nil =>
    rw [List.nil_append, splitLines]
    simp
  | cons c cs ih =>
    have hc : (c == '\n') = false := by
      simp only [beq_eq_false_iff_ne, ne_eq]
      intro he
      exact h (he ▸ List.mem_cons_self c cs)
    rw [List.cons_append, splitLines,
      ih (fun hmem => h (List.mem_cons_of_mem c hmem))]
    simp [hc]

theorem splitLines_sepJoin (ts : List (List Char)) (hne : ts ≠ [])
    (h : ∀ t ∈ ts, '\n' ∉ t) :
    splitLines (sepJoin ['\n'] ts) = ts := by
  induction ts with
  | nil => exact absurd rfl hne
  | cons t us ih =>
    cases us with
    | nil =>
      show splitLines (t ++ [].flatMap fun u => ['\n'] ++ u) = [t]
      simp only [List.flatMap_nil, List.append_nil]
      exact splitLines_single t (h t (List.mem_cons_self t []))
    | cons u vs =>
      show splitLines (t ++ (u :: vs).flatMap fun w => ['\n'] ++ w) = t :: u :: vs
      have hjoin : ((u :: vs).flatMap fun w => ['\n'] ++ w) =
          '\n' :: sepJoin ['\n'] (u :: vs) := by
        show (['\n'] ++ u) ++ vs.flatMap (fun w => ['\n'] ++ w) = _
        simp [sepJoin]
      rw [hjoin, splitLines_append t _ (h t (List.mem_cons_self t _)),
        ih (by simp) (fun w hw => h w (List.mem_cons_of_mem t hw))]

theorem sepJoin_mem (sep : List Char) (ts : List (List Char)) (c : Char)
    (hc : c ∈ sepJoin sep ts) : c ∈ sep ∨ ∃ t ∈ ts, c ∈ t := by
  cases ts with
  | nil => simp [sepJoin] at hc
  | cons t us =>
    simp only [sepJoin] at hc
    rcases List.mem_append.mp hc with h | h
    · exact Or.inr ⟨t, List.mem_cons_self t us, h⟩
    · rcases List.mem_flatMap.mp h with ⟨u, hu, hcu⟩
      rcases List.mem_append.mp hcu with h' | h'
      · exact Or.inl h'
      · exact Or.inr ⟨u, List.mem_cons_of_mem t hu, h'⟩

/-! ### Characters of the rendered numeric values -/

theorem fmt1_data_cases (q : ℚ) :
    (fmt1 q).data = (if round (10 * q) < 0 then ['-'] else []) ++
      (Nat.repr ((round (10 * q)).natAbs / 10)).data ++
      '.' :: (Nat.repr ((round (10 * q)).natAbs % 10)).data := by
  unfold fmt1
  by_cases h : round (10 * q) < 0 <;>
    simp [h, String.data_append]

theorem fmt1_chars (q : ℚ) : ∀ c ∈ (fmt1 q).data, c = '-' ∨ c = '.' ∨ c.isDigit = true := by
  rw [fmt1_data_cases]
  intro c hc
  rcases List.mem_append.mp hc with h1 | h1
  · rcases List.mem_append.mp h1 with h2 | h2
    · by_cases hneg : round (10 * q) < 0
      · rw [if_pos hneg] at h2
        simp at h2
        exact Or.inl h2
      · rw [if_neg hneg] at h2
        simp at h2
    · exact Or.inr (Or.inr (repr_digits _ c h2))
  · rcases List.mem_cons.mp h1 with h2 | h2
    · exact Or.inr (Or.inl h2)
    · exact Or.inr (Or.inr (repr_digits _ c h2))

theorem fmt1_no_comma (q : ℚ) : ',' ∉ (fmt1 q).data := by
  intro h
  rcases fmt1_chars q ',' h with h1 | h1 | h1
  · exact absurd h1 (by decide)
  · exact absurd h1 (by decide)
  · exact absurd h1 (by decide)

theorem fmt1_no_nl (q : ℚ) : '\n' ∉ (fmt1 q).data := by
  intro h
  rcases fmt1_chars q '\n' h with h1 | h1 | h1
  · exact absurd h1 (by decide)
  · exact absurd h1 (by decide)
  · exact absurd h1 (by decide)

theorem fmt1_data_ne_nil (q : ℚ) : (fmt1 q).data ≠ [] := by
  rw [fmt1_data_cases]
  intro h
  rcases List.append_eq_nil.mp h with ⟨_, h2⟩
  simp at h2

theorem pyStr_chars (q : ℚ) : ∀ c ∈ (pyStr q).data, c = '-' ∨ c = '/' ∨ c.isDigit = true := by
  unfold pyStr
  intro c hc
  rw [String.data_append, String.data_append] at hc
  rcases List.mem_append.mp hc with h1 | h1
  · rcases List.mem_append.mp h1 with h2 | h2
    · by_cases hn : q.num < 0
      · rw [if_pos hn] at h2
        simp at h2
        exact Or.inl h2
      · rw [if_neg hn] at h2
        simp at h2
    · exact Or.inr (Or.inr (repr_digits _ c h2))
  · by_cases hd : q.den = 1
    · rw [if_pos hd] at h1
      simp at h1
    · rw [if_neg hd] at h1
      rw [String.data_append] at h1
      rcases List.mem_append.mp h1 with h2 | h2
      · simp at h2
        exact Or.inr (Or.inl h2)
      · exact Or.inr (Or.inr (repr_digits _ c h2))

theorem pyStr_no_nl (q : ℚ) : '\n' ∉ (pyStr q).data := by
  intro h
  rcases pyStr_chars q '\n' h with h1 | h1 | h1
  · exact absurd h1 (by decide)
  · exact absurd h1 (by decide)
  · exact absurd h1 (by decide)

theorem fmt3_data (w : ℚ × ℚ × ℚ) :
    (fmt3 w).data =
      (fmt1 w.1).data ++ [','] ++ (fmt1 w.2.1).data ++ [','] ++ (fmt1 w.2.2).data := by
  unfold fmt3
  simp only [String.data_append, show ("," : String).data = [','] from rfl]

theorem fmt3_no_nl (w : ℚ × ℚ × ℚ) : '\n' ∉ (fmt3 w).data := by
  rw [fmt3_data]
  intro h
  simp only [List.mem_append] at h
  rcases h with (((h1 | h1) | h1) | h1) | h1
  · exact fmt1_no_nl _ h1
  · exact absurd h1 (by decide)
  · exact fmt1_no_nl _ h1
  · exact absurd h1 (by decide)
  · exact fmt1_no_nl _ h1

theorem repr_no_nl (k : ℕ) : '\n' ∉ (Nat.repr k).data := by
  intro h
  exact absurd (repr_digits k '\n' h) (by decide)

theorem bodyKey_no_nl (i : ℕ) : '\n' ∉ (bodyKey i).data := by
  intro h
  have := bodyKey_keyChars i '\n' h
  exact absurd this (by decide)

theorem bodyKey_no_space (i : ℕ) : ' ' ∉ (bodyKey i).data := by
  intro h
  have := bodyKey_keyChars i ' ' h
  exact absurd this (by decide)

theorem no_nl_append (s t : String) (h1 : '\n' ∉ s.data) (h2 : '\n' ∉ t.data) :
    '\n' ∉ (s ++ t).data := by
  rw [String.data_append]
  intro hm
  rcases List.mem_append.mp hm with h | h
  · exact h1 h
  · exact h2 h

theorem no_nl_joinKeys (n : ℕ) :
    '\n' ∉ (String.intercalate " " ((List.range n).map bodyKey)).data := by
  rw [intercalate_data]
  intro hm
  rcases sepJoin_mem _ _ _ hm with h | ⟨t, ht, hct⟩
  · exact absurd h (by decide)
  · rcases List.mem_map.mp ht with ⟨s, hs, rfl⟩
    rcases List.mem_map.mp hs with ⟨i, _, rfl⟩
    exact bodyKey_no_nl i hct

/-- No line of the generated document contains a newline, so joining with
`"\n"` and re-splitting recovers exactly the `output` list. -/
theorem noNL_doc (n : ℕ) (ps vs : List (ℚ × ℚ × ℚ)) (ms : List ℚ) (d : ℚ) :
    ∀ l ∈ generateBodiesLines n ps vs ms d, '\n' ∉ l.data := by
  intro l hl
  unfold generateBodiesLines at hl
  rcases List.mem_append.mp hl with h | h
  · unfold headerLines at h
    simp only [List.mem_cons, List.not_mem_nil, or_false] at h
    rcases h with rfl | rfl | rfl | rfl | rfl | rfl | rfl | rfl | rfl | rfl | rfl
    · decide
    · decide
    · decide
    · exact no_nl_append _ _ (no_nl_append _ _ (by decide) (repr_no_nl n)) (by decide)
    · decide
    · decide
    · decide
    · decide
    · decide
    · exact no_nl_append _ _ (by decide) (no_nl_joinKeys n)
    · decide
  · rcases List.mem_flatMap.mp h with ⟨i, _, hline⟩
    unfold bodyLines at hline
    simp only [List.mem_cons, List.not_mem_nil, or_false] at hline
    rcases hline with rfl | rfl | rfl | rfl | rfl | rfl | rfl | rfl
    · exact no_nl_append _ _ (no_nl_append _ _ (by decide) (repr_no_nl i)) (by decide)
    · exact no_nl_append _ _ (no_nl_append _ _ (bodyKey_no_nl i) (by decide)) (repr_no_nl i)
    · exact no_nl_append _ _ (no_nl_append _ _ (bodyKey_no_nl i) (by decide)) (fmt1_no_nl _)
    · exact no_nl_append _ _ (no_nl_append _ _ (bodyKey_no_nl i) (by decide)) (pyStr_no_nl _)
    · exact no_nl_append _ _ (no_nl_append _ _ (bodyKey_no_nl i) (by decide)) (fmt3_no_nl _)
    · exact no_nl_append _ _ (no_nl_append _ _ (bodyKey_no_nl i) (by decide)) (fmt3_no_nl _)
    · exact no_nl_append _ _ (bodyKey_no_nl i) (by decide)
    · decide

/-- Parsing the text returned by `generate_bodies` into lines recovers
exactly the `output` list the Python code joined. -/
theorem linesOf_generate (n : ℕ) (ps vs : List (ℚ × ℚ × ℚ)) (ms : List ℚ) (d : ℚ) :
    linesOf (generate_bodies n ps vs ms d) = generateBodiesLines n ps vs ms d := by
  unfold linesOf generate_bodies
  rw [intercalate_data, show ("\n" : String).data = ['\n'] from rfl,
    splitLines_sepJoin _ (by
      intro hmap
      have : generateBodiesLines n ps vs ms d = [] := List.map_eq_nil_iff.mp hmap
      unfold generateBodiesLines headerLines at this
      simp at this)
    (by
      intro t ht
      rcases List.mem_map.mp ht with ⟨s, hs, rfl⟩
      exact noNL_doc n ps vs ms d s hs)]
  rw [List.map_map]
  show (generateBodiesLines n ps vs ms d).map (fun s => List.asString s.data) = _
  rw [show (fun s : String => List.asString s.data) = id from rfl, List.map_id]

/-! ### The `bodies=` value, the comma triples, and the rounded values -/

theorem bodiesValue_tokens (n : ℕ) :
    splitOnC ' ' (String.intercalate " " ((List.range n).map bodyKey)).data =
      (List.range n).map (fun i => (bodyKey i).data) := by
  rw [intercalate_data, show (" " : String).data = [' '] from rfl, List.map_map]
  rw [splitOnC_sepJoin ' ' _ (fun t ht => ?_)]
  · rfl
  · rcases List.mem_map.mp ht with ⟨i, _, rfl⟩
    refine ⟨?_, bodyKey_no_space i⟩
    show (bodyKey i).data ≠ []
    rw [bodyKey_data]
    simp

theorem fmt1_no_comma_tok (q : ℚ) : (fmt1 q).data ≠ [] ∧ ',' ∉ (fmt1 q).data :=
  ⟨fmt1_data_ne_nil q, fmt1_no_comma q⟩

theorem fmt3_tokens (w : ℚ × ℚ × ℚ) :
    splitOnC ',' (fmt3 w).data =
      [(fmt1 w.1).data, (fmt1 w.2.1).data, (fmt1 w.2.2).data] := by
  rw [fmt3_data]
  rw [show (fmt1 w.1).data ++ [','] ++ (fmt1 w.2.1).data ++ [','] ++ (fmt1 w.2.2).data =
      (fmt1 w.1).data ++ ',' :: ((fmt1 w.2.1).data ++ ',' :: (fmt1 w.2.2).data) by
    simp [List.append_assoc]]
  rw [splitOnC_append_sep ',' _ _ (fmt1_data_ne_nil _) (fmt1_no_comma _),
    splitOnC_append_sep ',' _ _ (fmt1_data_ne_nil _) (fmt1_no_comma _),
    splitOnC_single ',' _ (fmt1_data_ne_nil _) (fmt1_no_comma _)]

theorem isUDec1_shape (A : List Char) (d : Char) (hA : A ≠ [])
    (hAd : ∀ c ∈ A, c.isDigit = true) (hd : d.isDigit = true) :
    isUDec1 (A ++ '.' :: [d]) = true := by
  unfold isUDec1
  simp only [takeWhile_append_of_all Char.isDigit A hAd '.' (by decide) [d],
    List.drop_left]
  simp [hA, hd]

theorem isDec1_fmt1 (q : ℚ) : isDec1 (fmt1 q).data = true := by
  have hfrac : (Nat.repr ((round (10 * q)).natAbs % 10)).data =
      [Nat.digitChar ((round (10 * q)).natAbs % 10)] :=
    repr_data_lt10 _ (Nat.mod_lt _ (by omega))
  have hdig : (Nat.digitChar ((round (10 * q)).natAbs % 10)).isDigit = true :=
    digitChar_isDigit _ (Nat.mod_lt _ (by omega))
  rw [fmt1_data_cases, hfrac]
  by_cases hneg : round (10 * q) < 0
  · rw [if_pos hneg]
    rw [show (['-'] ++ (Nat.repr ((round (10 * q)).natAbs / 10)).data ++
        '.' :: [Nat.digitChar ((round (10 * q)).natAbs % 10)]) =
        '-' :: ((Nat.repr ((round (10 * q)).natAbs / 10)).data ++
          '.' :: [Nat.digitChar ((round (10 * q)).natAbs % 10)]) by simp]
    rw [show ∀ r : List Char, isDec1 ('-' :: r) = isUDec1 r from fun r => by
      show (if (('-' : Char) == '-') = true then isUDec1 r else isUDec1 ('-' :: r)) = _
      rw [if_pos (by decide)]]
    exact isUDec1_shape _ _ (repr_data_ne_nil _) (repr_digits _) hdig
  · rw [if_neg hneg, List.nil_append]
    cases hA : (Nat.repr ((round (10 * q)).natAbs / 10)).data with
    | nil => exact absurd hA (repr_data_ne_nil _)
    | cons a A' =>
      have ha : a.isDigit = true := by
        apply repr_digits ((round (10 * q)).natAbs / 10)
        rw [hA]
        exact List.mem_cons_self a A'
      have hne : (a == '-') = false := by
        simp only [beq_eq_false_iff_ne, ne_eq]
        intro he
        rw [he] at ha
        exact absurd ha (by decide)
      rw [List.cons_append]
      rw [show ∀ r : List Char, isDec1 (a :: r) = isUDec1 (a :: r) from fun r => by
        show (if (a == '-') = true then isUDec1 r else isUDec1 (a :: r)) = _
        rw [if_neg (by simp [hne])]]
      rw [← List.cons_append, ← hA]
      exact isUDec1_shape _ _ (repr_data_ne_nil _) (repr_digits _) hdig

theorem fmt1val_close (q : ℚ) : |fmt1val q - q| ≤ 1 / 20 := by
  unfold fmt1val
  have h := abs_sub_round (10 * q)
  have heq : (round (10 * q) : ℚ) / 10 - q = ((round (10 * q) : ℚ) - 10 * q) / 10 := by
    ring
  rw [heq, abs_div, abs_of_pos (by norm_num : (0 : ℚ) < 10)]
  have h' : |(round (10 * q) : ℚ) - 10 * q| ≤ 1 / 2 := by
    rwa [abs_sub_comm] at h
  linarith

theorem fmt1val_bounds (q lo hi : ℚ) (h1 : lo ≤ q) (h2 : q ≤ hi) :
    lo - 1 / 20 ≤ fmt1val q ∧ fmt1val q ≤ hi + 1 / 20 := by
  have h := abs_le.mp (fmt1val_close q)
  constructor <;> linarith [h.1, h.2]

/-! ### Dotted keys and section prefixes -/

theorem hasDotKey_mk (k v : String) (hk : ∀ c ∈ k.data, keyChar c = true) :
    hasDotKey (k ++ "=" ++ v) = k.data.contains '.' := by
  unfold hasDotKey
  rw [keyOf_mk k v hk]

theorem contains_dot_bodyField (i : ℕ) (fld : String) (hdot : '.' ∈ fld.data) :
    ((bodyKey i ++ fld).data.contains '.') = true := by
  show List.elem '.' ((bodyKey i ++ fld).data) = true
  exact List.elem_eq_true_of_mem (dot_mem_bodyField i fld hdot)

theorem hasDotKey_bodyField (i : ℕ) (fld v : String)
    (hfld : ∀ c ∈ fld.data, keyChar c = true) (hdot : '.' ∈ fld.data) :
    hasDotKey ((bodyKey i ++ fld) ++ "=" ++ v) = true := by
  unfold hasDotKey
  rw [keyOf_mk _ _ (bodyFieldKey_chars i fld hfld)]
  exact contains_dot_bodyField i fld hdot

theorem keyPre_bodyField (i : ℕ) (fld v : String)
    (hfld : ∀ c ∈ fld.data, keyChar c = true)
    (t : List Char) (hfd : fld.data = '.' :: t) :
    keyPre ((bodyKey i ++ fld) ++ "=" ++ v) = (bodyKey i).data := by
  unfold keyPre
  rw [keyOf_mk _ _ (bodyFieldKey_chars i fld hfld), String.data_append, hfd]
  exact takeWhile_append_of_all _ _ (bodyKey_no_dot i) '.' (by decide) t

theorem dottedKV_headerLines (n : ℕ) :
    (headerLines n).filter (fun l => isKVLine l && hasDotKey l) = [] := by
  rw [headerLines_eq]
  simp only [List.filter_cons, List.filter_nil,
    show isKVLine "# Physics system setup" = false from by decide,
    show isKVLine "" = false from by decide,
    show isKVLine "# System name:" = false from by decide,
    show isKVLine "# Gravitational constant (unrealistic units)" = false from by decide,
    show isKVLine "# Simulation time step (seconds)" = false from by decide,
    show isKVLine "# Keys for defined bodies" = false from by decide,
    hasDotKey_mk "name" _ (by decide),
    hasDotKey_mk "gravity" _ (by decide),
    hasDotKey_mk "timeStep" _ (by decide),
    hasDotKey_mk "bodies" _ (by decide),
    show (("name" : String)).data.contains '.' = false from by decide,
    show (("gravity" : String)).data.contains '.' = false from by decide,
    show (("timeStep" : String)).data.contains '.' = false from by decide,
    show (("bodies" : String)).data.contains '.' = false from by decide,
    Bool.false_and, Bool.and_false]
  simp

theorem dottedKV_bodyLines (i : ℕ) (m d : ℚ) (p v : ℚ × ℚ × ℚ) :
    (bodyLines i m d p v).filter (fun l => isKVLine l && hasDotKey l) =
      [ (bodyKey i ++ ".name") ++ "=" ++ ("Body " ++ Nat.repr i),
        (bodyKey i ++ ".mass") ++ "=" ++ fmt1 m,
        (bodyKey i ++ ".density") ++ "=" ++ pyStr d,
        (bodyKey i ++ ".position") ++ "=" ++ fmt3 p,
        (bodyKey i ++ ".velocity") ++ "=" ++ fmt3 v,
        (bodyKey i ++ ".color") ++ "=" ++ "200,200,200" ] := by
  rw [bodyLines_eq]
  simp only [List.filter_cons, List.filter_nil,
    isKVLine_bodyComment i,
    isKVLine_bodyField i ".name" _ (by decide),
    isKVLine_bodyField i ".mass" _ (by decide),
    isKVLine_bodyField i ".density" _ (by decide),
    isKVLine_bodyField i ".position" _ (by decide),
    isKVLine_bodyField i ".velocity" _ (by decide),
    isKVLine_bodyField i ".color" _ (by decide),
    hasDotKey_bodyField i ".name" _ (by decide) (by decide),
    hasDotKey_bodyField i ".mass" _ (by decide) (by decide),
    hasDotKey_bodyField i ".density" _ (by decide) (by decide),
    hasDotKey_bodyField i ".position" _ (by decide) (by decide),
    hasDotKey_bodyField i ".velocity" _ (by decide) (by decide),
    hasDotKey_bodyField i ".color" _ (by decide) (by decide),
    show isKVLine "" = false from by decide,
    Bool.false_and, Bool.and_self, Bool.true_and]
  simp

theorem dottedKV_doc (n : ℕ) (ps vs : List (ℚ × ℚ × ℚ)) (ms : List ℚ) (d : ℚ) :
    (generateBodiesLines n ps vs ms d).filter (fun l => isKVLine l && hasDotKey l) =
      (List.range n).flatMap (fun i =>
        [ (bodyKey i ++ ".name") ++ "=" ++ ("Body " ++ Nat.repr i),
          (bodyKey i ++ ".mass") ++ "=" ++ fmt1 (ms.getD i 0),
          (bodyKey i ++ ".density") ++ "=" ++ pyStr d,
          (bodyKey i ++ ".position") ++ "=" ++ fmt3 (ps.getD i (0, 0, 0)),
          (bodyKey i ++ ".velocity") ++ "=" ++ fmt3 (vs.getD i (0, 0, 0)),
          (bodyKey i ++ ".color") ++ "=" ++ "200,200,200" ]) := by
  unfold generateBodiesLines
  rw [List.filter_append, List.filter_flatMap, dottedKV_headerLines, List.nil_append]
  rw [show (fun i => (bodyLines i (ms.getD i 0) d
      (ps.getD i (0, 0, 0)) (vs.getD i (0, 0, 0))).filter
        (fun l => isKVLine l && hasDotKey l)) =
    (fun i =>
      [ (bodyKey i ++ ".name") ++ "=" ++ ("Body " ++ Nat.repr i),
        (bodyKey i ++ ".mass") ++ "=" ++ fmt1 (ms.getD i 0),
        (bodyKey i ++ ".density") ++ "=" ++ pyStr d,
        (bodyKey i ++ ".position") ++ "=" ++ fmt3 (ps.getD i (0, 0, 0)),
        (bodyKey i ++ ".velocity") ++ "=" ++ fmt3 (vs.getD i (0, 0, 0)),
        (bodyKey i ++ ".color") ++ "=" ++ "200,200,200" ])
    from funext fun i => dottedKV_bodyLines i _ _ _ _]

/-- The section prefixes of the dotted key-value lines are the body keys,
six lines per body. -/
theorem keyPre_dotted_doc (n : ℕ) (ps vs : List (ℚ × ℚ × ℚ)) (ms : List ℚ) (d : ℚ) :
    ((generateBodiesLines n ps vs ms d).filter
        (fun l => isKVLine l && hasDotKey l)).map keyPre =
      (List.range n).flatMap (fun i => List.replicate 6 (bodyKey i).data) := by
  rw [dottedKV_doc, List.map_flatMap]
  rw [show (fun i => (List.map keyPre
      [ (bodyKey i ++ ".name") ++ "=" ++ ("Body " ++ Nat.repr i),
        (bodyKey i ++ ".mass") ++ "=" ++ fmt1 (ms.getD i 0),
        (bodyKey i ++ ".density") ++ "=" ++ pyStr d,
        (bodyKey i ++ ".position") ++ "=" ++ fmt3 (ps.getD i (0, 0, 0)),
        (bodyKey i ++ ".velocity") ++ "=" ++ fmt3 (vs.getD i (0, 0, 0)),
        (bodyKey i ++ ".color") ++ "=" ++ "200,200,200" ])) =
    (fun i => List.replicate 6 (bodyKey i).data) from funext fun i => ?_]
  show List.map keyPre _ = _
  rw [List.map_cons, List.map_cons, List.map_cons, List.map_cons, List.map_cons,
    List.map_cons, List.map_nil,
    keyPre_bodyField i ".name" _ (by decide) _ rfl,
    keyPre_bodyField i ".mass" _ (by decide) _ rfl,
    keyPre_bodyField i ".density" _ (by decide) _ rfl,
    keyPre_bodyField i ".position" _ (by decide) _ rfl,
    keyPre_bodyField i ".velocity" _ (by decide) _ rfl,
    keyPre_bodyField i ".color" _ (by decide) _ rfl]
  rfl

theorem pyStr_data_ne_nil (q : ℚ) : (pyStr q).data ≠ [] := by
  unfold pyStr
  rw [String.data_append, String.data_append]
  intro h
  rcases List.append_eq_nil.mp h with ⟨h1, _⟩
  rcases List.append_eq_nil.mp h1 with ⟨_, h2⟩
  exact repr_data_ne_nil _ h2

theorem fmt3_data_ne_nil (w : ℚ × ℚ × ℚ) : (fmt3 w).data ≠ [] := by
  rw [fmt3_data]
  intro h
  rcases List.append_eq_nil.mp h with ⟨h1, _⟩
  rcases List.append_eq_nil.mp h1 with ⟨h2, _⟩
  rcases List.append_eq_nil.mp h2 with ⟨h3, _⟩
  rcases List.append_eq_nil.mp h3 with ⟨h4, _⟩
  exact fmt1_data_ne_nil _ h4

theorem bodyName_data_ne_nil (i : ℕ) : ("Body " ++ Nat.repr i).data ≠ [] := by
  rw [String.data_append]
  intro h
  rcases List.append_eq_nil.mp h with ⟨h1, _⟩
  exact absurd h1 (by decide)

/-- With zero bodies, the `output` list is exactly the header with an empty
`bodies=` value and no body sections. -/
theorem generateBodiesLines_zero (ps vs : List (ℚ × ℚ × ℚ)) (ms : List ℚ) (d : ℚ) :
    generateBodiesLines 0 ps vs ms d =
      [ "# Physics system setup",
        "",
        "# System name:",
        "name=Random System (0 bodies)",
        "# Gravitational constant (unrealistic units)",
        "gravity=10.0",
        "# Simulation time step (seconds)",
        "timeStep=0.004",
        "# Keys for defined bodies",
        "bodies=",
        "" ] := by
  unfold generateBodiesLines headerLines
  simp only [List.range_zero, List.flatMap_nil, List.append_nil, List.map_nil]
  decide

/-! ### The claims -/

/-- C1: for every `n_bodies` `n ≥ 0` and every state of the random stream,
the text returned by `generate_bodies`, parsed as line-oriented `key=value`
records with the `key.subkey=value` convention, contains exactly `n`
occurrences of each of the five declared per-body field suffixes plus `n`
occurrences of `.color`, one key-value line each for the global keys
`name`, `gravity`, `timeStep` and `bodies`, and exactly one record per
generated body with all five declared fields populated (each per-body field
key heads exactly one line, and the value of that line is nonempty). -/
theorem claim_C1 (n : ℕ) (ps vs : List (ℚ × ℚ × ℚ)) (ms : List ℚ) (d : ℚ) :
    countKeySuffix (linesOf (generate_bodies n ps vs ms d)) ".name" = n ∧
    countKeySuffix (linesOf (generate_bodies n ps vs ms d)) ".mass" = n ∧
    countKeySuffix (linesOf (generate_bodies n ps vs ms d)) ".density" = n ∧
    countKeySuffix (linesOf (generate_bodies n ps vs ms d)) ".position" = n ∧
    countKeySuffix (linesOf (generate_bodies n ps vs ms d)) ".velocity" = n ∧
    countKeySuffix (linesOf (generate_bodies n ps vs ms d)) ".color" = n ∧
    countKey (linesOf (generate_bodies n ps vs ms d)) "name" = 1 ∧
    countKey (linesOf (generate_bodies n ps vs ms d)) "gravity" = 1 ∧
    countKey (linesOf (generate_bodies n ps vs ms d)) "timeStep" = 1 ∧
    countKey (linesOf (generate_bodies n ps vs ms d)) "bodies" = 1 ∧
    ∀ i, i < n →
      (countKey (linesOf (generate_bodies n ps vs ms d)) (bodyKey i ++ ".name") = 1 ∧
       countKey (linesOf (generate_bodies n ps vs ms d)) (bodyKey i ++ ".mass") = 1 ∧
       countKey (linesOf (generate_bodies n ps vs ms d)) (bodyKey i ++ ".density") = 1 ∧
       countKey (linesOf (generate_bodies n ps vs ms d)) (bodyKey i ++ ".position") = 1 ∧
       countKey (linesOf (generate_bodies n ps vs ms d)) (bodyKey i ++ ".velocity") = 1) ∧
      (∀ fld : String, fld = ".name" ∨ fld = ".mass" ∨ fld = ".density" ∨
          fld = ".position" ∨ fld = ".velocity" →
        ∀ l ∈ kvWithKey (linesOf (generate_bodies n ps vs ms d)) (bodyKey i ++ fld),
          valueOf l ≠ []) := by
  refine ⟨?_, ?_, ?_, ?_, ?_, ?_, ?_, ?_, ?_, ?_, ?_⟩
  · rw [linesOf_generate, countKeySuffix_eq, kvWithSuffix_doc_name]; simp
  · rw [linesOf_generate, countKeySuffix_eq, kvWithSuffix_doc_mass]; simp
  · rw [linesOf_generate, countKeySuffix_eq, kvWithSuffix_doc_density]; simp
  · rw [linesOf_generate, countKeySuffix_eq, kvWithSuffix_doc_position]; simp
  · rw [linesOf_generate, countKeySuffix_eq, kvWithSuffix_doc_velocity]; simp
  · rw [linesOf_generate, countKeySuffix_eq, kvWithSuffix_doc_color]; simp
  · rw [linesOf_generate, countKey_eq, kvWithKey_doc_name]; rfl
  · rw [linesOf_generate, countKey_eq, kvWithKey_doc_gravity]; rfl
  · rw [linesOf_generate, countKey_eq, kvWithKey_doc_timeStep]; rfl
  · rw [linesOf_generate, countKey_eq, kvWithKey_doc_bodies]; rfl
  · intro i hi
    constructor
    · refine ⟨?_, ?_, ?_, ?_, ?_⟩
      · rw [linesOf_generate, countKey_eq, kvWithKey_doc_tname n i ps vs ms d hi]; rfl
      · rw [linesOf_generate, countKey_eq, kvWithKey_doc_tmass n i ps vs ms d hi]; rfl
      · rw [linesOf_generate, countKey_eq, kvWithKey_doc_tdensity n i ps vs ms d hi]; rfl
      · rw [linesOf_generate, countKey_eq, kvWithKey_doc_tposition n i ps vs ms d hi]; rfl
      · rw [linesOf_generate, countKey_eq, kvWithKey_doc_tvelocity n i ps vs ms d hi]; rfl
    · intro fld hfld l hl
      rw [linesOf_generate] at hl
      rcases hfld with rfl | rfl | rfl | rfl | rfl
      · rw [kvWithKey_doc_tname n i ps vs ms d hi] at hl
        simp only [List.mem_singleton] at hl
        subst hl
        rw [valueOf_mk _ _ (bodyFieldKey_chars i ".name" (by decide))]
        exact bodyName_data_ne_nil i
      · rw [kvWithKey_doc_tmass n i ps vs ms d hi] at hl
        simp only [List.mem_singleton] at hl
        subst hl
        rw [valueOf_mk _ _ (bodyFieldKey_chars i ".mass" (by decide))]
        exact fmt1_data_ne_nil _
      · rw [kvWithKey_doc_tdensity n i ps vs ms d hi] at hl
        simp only [List.mem_singleton] at hl
        subst hl
        rw [valueOf_mk _ _ (bodyFieldKey_chars i ".density" (by decide))]
        exact pyStr_data_ne_nil _
      · rw [kvWithKey_doc_tposition n i ps vs ms d hi] at hl
        simp only [List.mem_singleton] at hl
        subst hl
        rw [valueOf_mk _ _ (bodyFieldKey_chars i ".position" (by decide))]
        exact fmt3_data_ne_nil _
      · rw [kvWithKey_doc_tvelocity n i ps vs ms d hi] at hl
        simp only [List.mem_singleton] at hl
        subst hl
        rw [valueOf_mk _ _ (bodyFieldKey_chars i ".velocity" (by decide))]
        exact fmt3_data_ne_nil _

/-- C1 witness: the theorem applied at `n = 2` with concrete draws; the `.mass` key of body 0
 heads exactly one record line. -/
theorem claim_C1_witness :
    countKey (linesOf (generate_bodies 2 [(1, 2, 3), (4, 5, 6)] [(0, 0, 0), (1, 1, 1)]
      [3, 7] 1)) (bodyKey 0 ++ ".mass") = 1 :=
  (((claim_C1 2 [(1, 2, 3), (4, 5, 6)] [(0, 0, 0), (1, 1, 1)] [3, 7]
    1).2.2.2.2.2.2.2.2.2.2 0 (by decide)).1).2.1

/-- C2: for every `n_bodies` and every random draw, the generated document
has exactly one `bodies=` line, and its value splits on single spaces into
exactly `n` keys, the `i`-th being `body{i}`, in ascending ordinal order. -/
theorem claim_C2 (n : ℕ) (ps vs : List (ℚ × ℚ × ℚ)) (ms : List ℚ) (d : ℚ) :
    kvWithKey (linesOf (generate_bodies n ps vs ms d)) "bodies" =
      ["bodies" ++ "=" ++ String.intercalate " " ((List.range n).map bodyKey)] ∧
    splitOnC ' '
        (valueOf ("bodies" ++ "=" ++ String.intercalate " " ((List.range n).map bodyKey))) =
      (List.range n).map (fun i => (bodyKey i).data) := by
  constructor
  · rw [linesOf_generate, kvWithKey_doc_bodies]
  · rw [valueOf_mk _ _ (by decide)]
    exact bodiesValue_tokens n

/-- C4: the generated document always contains the literal lines
`gravity=10.0` and `timeStep=0.004`, each heading the unique key-value line
for its key, independent of every input. -/
theorem claim_C4 (n : ℕ) (ps vs : List (ℚ × ℚ × ℚ)) (ms : List ℚ) (d : ℚ) :
    kvWithKey (linesOf (generate_bodies n ps vs ms d)) "gravity" = ["gravity=10.0"] ∧
    kvWithKey (linesOf (generate_bodies n ps vs ms d)) "timeStep" = ["timeStep=0.004"] ∧
    valueOf "gravity=10.0" = ("10.0" : String).data ∧
    valueOf "timeStep=0.004" = ("0.004" : String).data ∧
    "gravity=10.0" ∈ linesOf (generate_bodies n ps vs ms d) ∧
    "timeStep=0.004" ∈ linesOf (generate_bodies n ps vs ms d) := by
  refine ⟨?_, ?_, by decide, by decide, ?_, ?_⟩
  · rw [linesOf_generate, kvWithKey_doc_gravity]; rfl
  · rw [linesOf_generate, kvWithKey_doc_timeStep]; rfl
  · rw [linesOf_generate]
    unfold generateBodiesLines headerLines
    simp
  · rw [linesOf_generate]
    unfold generateBodiesLines headerLines
    simp

/-- C6: with zero bodies, `generate_bodies` returns a well-formed document:
the exact header with an empty `bodies=` value and no per-body key-value
lines at all. -/
theorem claim_C6 (ps vs : List (ℚ × ℚ × ℚ)) (ms : List ℚ) (d : ℚ) :
    linesOf (generate_bodies 0 ps vs ms d) =
      [ "# Physics system setup",
        "",
        "# System name:",
        "name=Random System (0 bodies)",
        "# Gravitational constant (unrealistic units)",
        "gravity=10.0",
        "# Simulation time step (seconds)",
        "timeStep=0.004",
        "# Keys for defined bodies",
        "bodies=",
        "" ] ∧
    valueOf "bodies=" = [] ∧
    countKeySuffix (linesOf (generate_bodies 0 ps vs ms d)) ".name" = 0 ∧
    countKeySuffix (linesOf (generate_bodies 0 ps vs ms d)) ".mass" = 0 ∧
    countKeySuffix (linesOf (generate_bodies 0 ps vs ms d)) ".density" = 0 ∧
    countKeySuffix (linesOf (generate_bodies 0 ps vs ms d)) ".position" = 0 ∧
    countKeySuffix (linesOf (generate_bodies 0 ps vs ms d)) ".velocity" = 0 ∧
    countKeySuffix (linesOf (generate_bodies 0 ps vs ms d)) ".color" = 0 := by
  refine ⟨?_, by decide, ?_, ?_, ?_, ?_, ?_, ?_⟩
  · rw [linesOf_generate]
    exact generateBodiesLines_zero ps vs ms d
  · rw [linesOf_generate, countKeySuffix_eq, kvWithSuffix_doc_name]; simp
  · rw [linesOf_generate, countKeySuffix_eq, kvWithSuffix_doc_mass]; simp
  · rw [linesOf_generate, countKeySuffix_eq, kvWithSuffix_doc_density]; simp
  · rw [linesOf_generate, countKeySuffix_eq, kvWithSuffix_doc_position]; simp
  · rw [linesOf_generate, countKeySuffix_eq, kvWithSuffix_doc_velocity]; simp
  · rw [linesOf_generate, countKeySuffix_eq, kvWithSuffix_doc_color]; simp

/-- C5: the set of body keys listed on the `bodies=` line is exactly the set
of section prefixes of the `key.subkey=value` lines emitted in the document
body, and each listed key heads exactly one record (witnessed by its unique
`.name` line). -/
theorem claim_C5 (n : ℕ) (ps vs : List (ℚ × ℚ × ℚ)) (ms : List ℚ) (d : ℚ) :
    (∀ k : List Char,
      (∃ l ∈ kvWithKey (linesOf (generate_bodies n ps vs ms d)) "bodies",
          k ∈ splitOnC ' ' (valueOf l)) ↔
      (∃ l ∈ (linesOf (generate_bodies n ps vs ms d)).filter
          (fun l => isKVLine l && hasDotKey l), keyPre l = k)) ∧
    (∀ i, i < n →
      countKey (linesOf (generate_bodies n ps vs ms d)) (bodyKey i ++ ".name") = 1) := by
  constructor
  · intro k
    rw [linesOf_generate, kvWithKey_doc_bodies, dottedKV_doc]
    constructor
    · rintro ⟨l, hl, hk⟩
      simp only [List.mem_singleton] at hl
      subst hl
      rw [valueOf_mk _ _ (by decide), bodiesValue_tokens] at hk
      rcases List.mem_map.mp hk with ⟨i, hi, rfl⟩
      refine ⟨(bodyKey i ++ ".name") ++ "=" ++ ("Body " ++ Nat.repr i), ?_, ?_⟩
      · exact List.mem_flatMap.mpr ⟨i, hi, by simp⟩
      · exact keyPre_bodyField i ".name" _ (by decide) _ rfl
    · rintro ⟨l, hl, hpre⟩
      rcases List.mem_flatMap.mp hl with ⟨i, hi, hmem⟩
      have hk : keyPre l = (bodyKey i).data := by
        simp only [List.mem_cons, List.not_mem_nil, or_false] at hmem
        rcases hmem with rfl | rfl | rfl | rfl | rfl | rfl
        · exact keyPre_bodyField i ".name" _ (by decide) _ rfl
        · exact keyPre_bodyField i ".mass" _ (by decide) _ rfl
        · exact keyPre_bodyField i ".density" _ (by decide) _ rfl
        · exact keyPre_bodyField i ".position" _ (by decide) _ rfl
        · exact keyPre_bodyField i ".velocity" _ (by decide) _ rfl
        · exact keyPre_bodyField i ".color" _ (by decide) _ rfl
      refine ⟨"bodies" ++ "=" ++ String.intercalate " " ((List.range n).map bodyKey),
        by simp, ?_⟩
      rw [valueOf_mk _ _ (by decide), bodiesValue_tokens, ← hpre, hk]
      exact List.mem_map.mpr ⟨i, hi, rfl⟩
  · intro i hi
    rw [linesOf_generate, countKey_eq, kvWithKey_doc_tname n i ps vs ms d hi]
    rfl

/-- C5 witness: at `n = 1`, the listed key `body0` appears among the section
prefixes, and `body0.name` heads exactly one line. -/
theorem claim_C5_witness :
    countKey (linesOf (generate_bodies 1 [((0 : ℚ), (0 : ℚ), (0 : ℚ))]
      [((0 : ℚ), (0 : ℚ), (0 : ℚ))] [(5 : ℚ)] 1)) (bodyKey 0 ++ ".name") = 1 :=
  (claim_C5 1 [((0 : ℚ), (0 : ℚ), (0 : ℚ))] [((0 : ℚ), (0 : ℚ), (0 : ℚ))]
    [(5 : ℚ)] 1).2 0 (by decide)

/-- C7: in the generated document, the value of every key-value line whose
key ends with `.position` or `.velocity` splits on commas into exactly three
tokens, each a decimal numeral rendered with one digit after the decimal
point. -/
theorem claim_C7 (n : ℕ) (ps vs : List (ℚ × ℚ × ℚ)) (ms : List ℚ) (d : ℚ) :
    ∀ l ∈ linesOf (generate_bodies n ps vs ms d), isKVLine l = true →
      (keyEndsWith l ".position" = true ∨ keyEndsWith l ".velocity" = true) →
      ∃ t1 t2 t3 : List Char, splitOnC ',' (valueOf l) = [t1, t2, t3] ∧
        isDec1 t1 = true ∧ isDec1 t2 = true ∧ isDec1 t3 = true := by
  intro l hl hkv hsuf
  rw [linesOf_generate] at hl
  rcases hsuf with hsuf | hsuf
  · have hmem : l ∈ kvWithSuffix (generateBodiesLines n ps vs ms d) ".position" :=
      List.mem_filter.mpr ⟨hl, by simp [hkv, hsuf]⟩
    rw [kvWithSuffix_doc_position] at hmem
    rcases List.mem_map.mp hmem with ⟨i, _, rfl⟩
    refine ⟨(fmt1 (ps.getD i (0, 0, 0)).1).data, (fmt1 (ps.getD i (0, 0, 0)).2.1).data,
      (fmt1 (ps.getD i (0, 0, 0)).2.2).data, ?_,
      isDec1_fmt1 _, isDec1_fmt1 _, isDec1_fmt1 _⟩
    rw [valueOf_mk _ _ (bodyFieldKey_chars i ".position" (by decide))]
    exact fmt3_tokens _
  · have hmem : l ∈ kvWithSuffix (generateBodiesLines n ps vs ms d) ".velocity" :=
      List.mem_filter.mpr ⟨hl, by simp [hkv, hsuf]⟩
    rw [kvWithSuffix_doc_velocity] at hmem
    rcases List.mem_map.mp hmem with ⟨i, _, rfl⟩
    refine ⟨(fmt1 (vs.getD i (0, 0, 0)).1).data, (fmt1 (vs.getD i (0, 0, 0)).2.1).data,
      (fmt1 (vs.getD i (0, 0, 0)).2.2).data, ?_,
      isDec1_fmt1 _, isDec1_fmt1 _, isDec1_fmt1 _⟩
    rw [valueOf_mk _ _ (bodyFieldKey_chars i ".velocity" (by decide))]
    exact fmt3_tokens _

/-- C7 witness: the theorem applied to the `.position` line of body 0 in a
one-body document. -/
theorem claim_C7_witness :
    ∃ t1 t2 t3 : List Char,
      splitOnC ','
        (valueOf ((bodyKey 0 ++ ".position") ++ "=" ++ fmt3 ((1 : ℚ), (2 : ℚ), (3 : ℚ)))) =
        [t1, t2, t3] ∧
      isDec1 t1 = true ∧ isDec1 t2 = true ∧ isDec1 t3 = true := by
  have hmem : ((bodyKey 0 ++ ".position") ++ "=" ++ fmt3 ((1 : ℚ), (2 : ℚ), (3 : ℚ))) ∈
      kvWithSuffix (generateBodiesLines 1 [((1 : ℚ), (2 : ℚ), (3 : ℚ))]
        [((0 : ℚ), (0 : ℚ), (0 : ℚ))] [(5 : ℚ)] 1) ".position" := by
    rw [kvWithSuffix_doc_position]
    simp
  have hl : ((bodyKey 0 ++ ".position") ++ "=" ++ fmt3 ((1 : ℚ), (2 : ℚ), (3 : ℚ))) ∈
      linesOf (generate_bodies 1 [((1 : ℚ), (2 : ℚ), (3 : ℚ))]
        [((0 : ℚ), (0 : ℚ), (0 : ℚ))] [(5 : ℚ)] 1) := by
    rw [linesOf_generate]
    exact (List.mem_filter.mp hmem).1
  have hpred := (List.mem_filter.mp hmem).2
  simp only [Bool.and_eq_true] at hpred
  exact claim_C7 1 [((1 : ℚ), (2 : ℚ), (3 : ℚ))] [((0 : ℚ), (0 : ℚ), (0 : ℚ))]
    [(5 : ℚ)] 1 _ hl hpred.1 (Or.inl hpred.2)

/-- C3 (amended): the `.mass` lines emit, in order, the one-decimal
renderings of the post-shuffle mass list, which is a permutation of the
uniform draws from `[mass_scale/10, mass_scale*2)`; each emitted
(one-decimal rounded) mass value lies in the closed interval widened by half
a rounding unit, `[mass_scale/10 - 0.05, mass_scale*2 + 0.05]`. -/
theorem claim_C3 (n : ℕ) (s : ℚ) (ps vs : List (ℚ × ℚ × ℚ)) (draws ms : List ℚ)
    (d : ℚ) (hlen : ms.length = n) (hperm : ms.Perm draws)
    (hdraws : ∀ x ∈ draws, s / 10 ≤ x ∧ x < 2 * s) :
    kvWithSuffix (linesOf (generate_bodies n ps vs ms d)) ".mass" =
      (List.range n).map (fun i => (bodyKey i ++ ".mass") ++ "=" ++ fmt1 (ms.getD i 0)) ∧
    ∀ i, i < n →
      s / 10 - 1 / 20 ≤ fmt1val (ms.getD i 0) ∧
        fmt1val (ms.getD i 0) ≤ 2 * s + 1 / 20 := by
  constructor
  · rw [linesOf_generate]
    exact kvWithSuffix_doc_mass n ps vs ms d
  · intro i hi
    have hilen : i < ms.length := by omega
    have hmem : ms.getD i 0 ∈ ms := by
      rw [List.getD_eq_getElem ms 0 hilen]
      exact List.getElem_mem hilen
    have hx := hdraws _ (hperm.subset hmem)
    exact fmt1val_bounds _ _ _ hx.1 (le_of_lt hx.2)

/-- C3 witness: one body, `mass_scale = 1`, draw `1/2 ∈ [1/10, 2)`; the
`.mass` line is the rendering of that draw and its rounded value lies in
the widened interval. -/
theorem claim_C3_witness :
    kvWithSuffix (linesOf (generate_bodies 1 [((0 : ℚ), (0 : ℚ), (0 : ℚ))]
        [((0 : ℚ), (0 : ℚ), (0 : ℚ))] [(1 : ℚ) / 2] 1)) ".mass" =
      (List.range 1).map (fun i =>
        (bodyKey i ++ ".mass") ++ "=" ++ fmt1 ([(1 : ℚ) / 2].getD i 0)) ∧
    ∀ i, i < 1 →
      (1 : ℚ) / 10 - 1 / 20 ≤ fmt1val ([(1 : ℚ) / 2].getD i 0) ∧
        fmt1val ([(1 : ℚ) / 2].getD i 0) ≤ 2 * 1 + 1 / 20 :=
  claim_C3 1 1 [((0 : ℚ), (0 : ℚ), (0 : ℚ))] [((0 : ℚ), (0 : ℚ), (0 : ℚ))]
    [(1 : ℚ) / 2] [(1 : ℚ) / 2] 1 rfl (List.Perm.refl _)
    (fun x hx => by
      simp only [List.mem_singleton] at hx
      subst hx
      constructor <;> norm_num)

/-- C3 counterexample: with `mass_scale = 2/5`, the legal uniform draw
`1/25 ∈ [mass_scale/10, mass_scale*2)` is emitted as `body0.mass=0.0`, and
the one-decimal value `0.0` lies outside the claimed closed interval
`[mass_scale/10, mass_scale*2]`. -/
theorem claim_C3_counterexample :
    ((2 : ℚ) / 5) / 10 ≤ 1 / 25 ∧ (1 / 25 : ℚ) < 2 * (2 / 5) ∧
    kvWithSuffix (linesOf (generate_bodies 1 [((0 : ℚ), (0 : ℚ), (0 : ℚ))]
        [((0 : ℚ), (0 : ℚ), (0 : ℚ))] [(1 : ℚ) / 25] (1 / 10))) ".mass" =
      [(bodyKey 0 ++ ".mass") ++ "=" ++ fmt1 ((1 : ℚ) / 25)] ∧
    fmt1 ((1 : ℚ) / 25) = "0.0" ∧
    fmt1val ((1 : ℚ) / 25) = 0 ∧
    ¬(((2 : ℚ) / 5) / 10 ≤ fmt1val ((1 : ℚ) / 25)) := by
  have hr : round ((10 : ℚ) * (1 / 25)) = 0 := by
    rw [round_eq]
    norm_num
  have hv : fmt1val ((1 : ℚ) / 25) = 0 := by
    unfold fmt1val
    rw [hr]
    norm_num
  refine ⟨by norm_num, by norm_num, ?_, ?_, hv, by rw [hv]; norm_num⟩
  · rw [linesOf_generate, kvWithSuffix_doc_mass,
      show List.range 1 = [0] from rfl, List.map_cons, List.map_nil]
    rfl
  · simp only [fmt1, hr]
    decide

/-- C8: `visualize_distributions` writes no file — its effect trace holds
only the interactive figure display — while the trace of the entry point prints
the message claiming `body_distributions.png` was saved and yet the only
file ever written is `random_system.properties` (with the generated
document as contents). -/
theorem claim_C8 :
    (∀ e ∈ visualize_distributions_effects, ∀ nm c, e ≠ Effect.fileWrite nm c) ∧
    (∀ doc stats, Effect.consoleOut "Visualization saved to \x27body_distributions.png\x27" ∈
      main_effects doc stats) ∧
    (∀ doc stats nm c, Effect.fileWrite nm c ∈ main_effects doc stats →
      nm = "random_system.properties" ∧ c = doc) := by
  refine ⟨?_, ?_, ?_⟩
  · intro e he nm c
    simp only [visualize_distributions_effects, List.mem_singleton] at he
    subst he
    intro h
    exact Effect.noConfusion h
  · intro doc stats
    simp [main_effects, visualize_distributions_effects]
  · intro doc stats nm c hmem
    have hed : main_effects doc stats =
        Effect.fileWrite "random_system.properties" doc ::
        Effect.showFigure ::
        Effect.consoleOut "Generated 100 bodies in \x27random_system.properties\x27" ::
        Effect.consoleOut "Visualization saved to \x27body_distributions.png\x27" ::
        stats.map Effect.consoleOut := rfl
    rw [hed] at hmem
    simp only [List.mem_cons] at hmem
    rcases hmem with h | h | h | h | h
    · injection h with h1 h2
      exact ⟨h1, h2⟩
    · exact absurd h (by simp)
    · exact absurd h (by simp)
    · exact absurd h (by simp)
    · rcases List.mem_map.mp h with ⟨s, _, hs⟩
      exact absurd hs (by simp)

/-- C8 witness: the display effect is not a file write; the misleading
console message is in the trace of the entry point, whose only file write is
`random_system.properties`. -/
theorem claim_C8_witness :
    Effect.showFigure ≠ Effect.fileWrite "body_distributions.png" "x" ∧
    Effect.consoleOut "Visualization saved to \x27body_distributions.png\x27" ∈
      main_effects "doc" [] ∧
    ("random_system.properties" : String) = "random_system.properties" ∧
      ("doc" : String) = "doc" :=
  ⟨claim_C8.1 Effect.showFigure (by decide) "body_distributions.png" "x",
   claim_C8.2.1 "doc" [],
   claim_C8.2.2 "doc" [] "random_system.properties" "doc" (by decide)⟩

/-- C9: `generate_bodies` is a pure function of its arguments and the
consumed random draws: identical arguments and identical draws give
character-identical documents, and its effect trace is empty (no file or
console output; only the random stream, modelled by the draw arguments, is
consumed). -/
theorem claim_C9 (n n' : ℕ) (ps ps' vs vs' : List (ℚ × ℚ × ℚ)) (ms ms' : List ℚ)
    (d d' : ℚ) (h1 : n = n') (h2 : ps = ps') (h3 : vs = vs') (h4 : ms = ms')
    (h5 : d = d') :
    generate_bodies n ps vs ms d = generate_bodies n' ps' vs' ms' d' ∧
    generate_bodies_effects = [] := by
  subst h1
  subst h2
  subst h3
  subst h4
  subst h5
  exact ⟨rfl, rfl⟩

/-- C9 witness: two calls with identical concrete arguments and draws. -/
theorem claim_C9_witness :
    generate_bodies 1 [((1 : ℚ), 2, 3)] [((0 : ℚ), 0, 0)] [(5 : ℚ)] 1 =
      generate_bodies 1 [((1 : ℚ), 2, 3)] [((0 : ℚ), 0, 0)] [(5 : ℚ)] 1 ∧
    generate_bodies_effects = [] :=
  claim_C9 1 1 [((1 : ℚ), 2, 3)] [((1 : ℚ), 2, 3)] [((0 : ℚ), 0, 0)] [((0 : ℚ), 0, 0)]
    [(5 : ℚ)] [(5 : ℚ)] 1 1 rfl rfl rfl rfl rfl

/-- C10: for a negative `n_bodies`, `generate_bodies` does not return a
document: the very first sampling step, the `(n, 3)`-shaped position draw,
fails with the NumPy negative-dimension `ValueError`, so the whole call
errors before any output is assembled. -/
theorem claim_C10 (n : ℤ) (positionDraws velocityDraws : List (ℚ × ℚ × ℚ))
    (massDraws shuffled : List ℚ) (d : ℚ) (hn : n < 0) :
    generate_bodiesE n positionDraws velocityDraws massDraws shuffled d =
      Except.error "negative dimensions are not allowed" ∧
    npNormalMatrix n positionDraws =
      Except.error "negative dimensions are not allowed" := by
  have h1 : npNormalMatrix n positionDraws =
      Except.error "negative dimensions are not allowed" := by
    unfold npNormalMatrix
    rw [if_pos hn]
  refine ⟨?_, h1⟩
  unfold generate_bodiesE
  rw [h1]

/-- C10 witness: the theorem at `n_bodies = -1`. -/
theorem claim_C10_witness :
    generate_bodiesE (-1) [] [] [] [] 1 =
      Except.error "negative dimensions are not allowed" ∧
    npNormalMatrix (-1) [] =
      Except.error "negative dimensions are not allowed" :=
  claim_C10 (-1) [] [] [] [] 1 (by decide)

end Autogen

